import Mathlib

/-!
CT2 camera backend: the frame delivery pipeline.

A shallow embedding of `src/backend/backend.cpp` (class `Backend`) together
with the parts of `rtspcamera.cpp` it calls.

Conventions of the embedding.

* The object state of `Backend` is the record `Backend`; every member function
  becomes a function returning the new state and the trace of externally
  visible events it caused (`Event`): text messages handed to a viewer socket,
  `QTimer::start`/`stop` calls, and entries into `encodeAndSendFrame`.
* A `QMap<QString, T>` is an association list (`QMap`); the non-const
  `operator[]` inserts a default-constructed value under an absent key and is
  modelled that way (`QMap.index`).
* A viewer is the address of its `QWebSocket`, a natural number; the state of a
  socket is owned by the network layer and is read through `sock`.
* OpenCV, libm and Qt JSON are outside the repository.  Pixel arithmetic that
  the change detector relies on (`cv::absdiff`, `cv::mean`) is written out for
  8-bit data; rendering, resizing, the JPEG codec and the float expressions of
  the synthetic frames are taken from a record `Cv`.
* `cv::mean` and the sum of its components are `double` operations.
  `hasFrameChangedDouble` carries them out in binary64 (`Binary64`: 53
  significant bits, round to nearest, ties to even; `cv::mean` as
  `sum * (1./N)`).  `hasFrameChanged`, the detector inside
  `encodeAndSendFrame`, takes the same means and sum exactly.  The two differ
  only when the magnitude is within rounding distance of the threshold; they
  coincide for every threshold of at least 766, hence in every reachable state
  (`hasFrameChangedDouble_eq`, `hasFrameChangedDouble_eq_of_reachable`).
* `qint64`/`int` values are integers; the counters never get near their width.
-/

namespace CT2

/-! ## Qt containers and strings -/

/-- A `QMap<QString, T>` as an association list with unique keys in insertion order. -/
abbrev QMap (α : Type) := List (String × α)

/-- Membership test `QMap::contains(key)`. -/
def QMap.contains {α : Type} : QMap α → String → Bool
  | [], _ => false
  | e :: m, k => if e.1 = k then true else QMap.contains m k

/-- Lookup `QMap::value(key, defaultValue)`: never inserts. -/
def QMap.value {α : Type} : QMap α → String → α → α
  | [], _, d => d
  | e :: m, k, d => if e.1 = k then e.2 else QMap.value m k d

/-- Assignment `map[key] = v`: replaces the value of an existing key, else adds the key. -/
def QMap.assign {α : Type} : QMap α → String → α → QMap α
  | [], k, v => [(k, v)]
  | e :: m, k, v => if e.1 = k then (k, v) :: m else e :: QMap.assign m k v

/-- Read through the non-const `map[key]`: yields the stored value, or inserts and
yields a default-constructed one when the key is absent. -/
def QMap.index {α : Type} [Inhabited α] (m : QMap α) (k : String) : α × QMap α :=
  if QMap.contains m k then (QMap.value m k default, m)
  else (default, QMap.assign m k default)

/-- Position of the first occurrence, `QString::indexOf(ch)`; `-1` when absent. -/
def indexOf (s : String) (c : Char) : Int :=
  if List.indexOf c s.data < s.data.length then (List.indexOf c s.data : Int) else -1

/-- Leading part, `QString::left(n)`. -/
def left (s : String) (n : Int) : String := String.mk (s.data.take n.toNat)

/-- Trailing part, `QString::mid(pos)`. -/
def mid (s : String) (pos : Int) : String := String.mk (s.data.drop pos.toNat)

/-! ## Base64 (`QByteArray::toBase64`, `QByteArray::fromBase64`) -/

/-- The standard base64 alphabet (`QByteArray::Base64Encoding`). -/
def base64Alphabet : List Char :=
  "ABCDEFGHIJKLMNOPQRSTUVWXYZabcdefghijklmnopqrstuvwxyz0123456789+/".data

/-- Character of a six-bit value. -/
def base64Char (v : Nat) : Char := base64Alphabet.getD v 'A'

/-- Six-bit value of a character of the alphabet. -/
def base64Val (c : Char) : Nat := List.indexOf c base64Alphabet

/-- Encoding of a byte sequence with `Base64Encoding | OmitTrailingEquals`:
three bytes give four characters, a final group of one or two bytes gives two or
three characters and no padding. -/
def toBase64 : List Nat → List Char
  | [] => []
  | [a] =>
    let n := (a % 256) * 65536
    [base64Char (n / 262144), base64Char (n / 4096 % 64)]
  | [a, b] =>
    let n := (a % 256) * 65536 + (b % 256) * 256
    [base64Char (n / 262144), base64Char (n / 4096 % 64), base64Char (n / 64 % 64)]
  | a :: b :: c :: rest =>
    let n := (a % 256) * 65536 + (b % 256) * 256 + c % 256
    base64Char (n / 262144) :: base64Char (n / 4096 % 64) :: base64Char (n / 64 % 64)
      :: base64Char (n % 64) :: toBase64 rest

/-- Decoding of unpadded base64 text: four characters give three bytes, a final
group of two or three characters gives one or two bytes. -/
def fromBase64 : List Char → List Nat
  | [] => []
  | [_] => []
  | [p, q] =>
    let n := base64Val p * 262144 + base64Val q * 4096
    [n / 65536]
  | [p, q, r] =>
    let n := base64Val p * 262144 + base64Val q * 4096 + base64Val r * 64
    [n / 65536, n / 256 % 256]
  | p :: q :: r :: t :: rest =>
    let n := base64Val p * 262144 + base64Val q * 4096 + base64Val r * 64 + base64Val t
    n / 65536 :: n / 256 % 256 :: n % 256 :: fromBase64 rest

/-! ## Frames (`cv::Mat`) -/

/-- A two-dimensional `cv::Mat`: header and pixel buffer (row-major, channels interleaved). -/
structure Mat where
  rows : Nat
  cols : Nat
  type : Nat
  data : List Nat
deriving DecidableEq, Repr

instance : Inhabited Mat := ⟨⟨0, 0, 0, []⟩⟩

/-- The type code `CV_8UC3`. -/
def CV_8UC3 : Nat := 16

/-- Emptiness test `Mat::empty()`: no buffer or no element. -/
def Mat.empty (m : Mat) : Bool := m.data.isEmpty || m.rows * m.cols == 0

/-- Channel count of the type code (`CV_MAT_CN`). -/
def Mat.channels (m : Mat) : Nat := m.type / 8 + 1

/-- Element `i` of the buffer read as an unsigned 8-bit value. -/
def Mat.elem (m : Mat) (i : Nat) : Nat := m.data.getD i 0 % 256

/-- Header comparison `a.size() != b.size() || a.type() != b.type()`. -/
def Mat.sizeOrTypeDiffers (a b : Mat) : Bool :=
  (a.cols, a.rows) != (b.cols, b.rows) || a.type != b.type

/-- Zero matrix `cv::Mat::zeros(rows, cols, type)`. -/
def Mat.zeros (rows cols type : Nat) : Mat :=
  ⟨rows, cols, type, List.replicate (rows * cols * (type / 8 + 1)) 0⟩

/-- Fill `Mat::setTo(Scalar(c0, c1, c2))` of a three-channel matrix. -/
def Mat.setTo (m : Mat) (c0 c1 c2 : Nat) : Mat :=
  { m with data := (List.replicate (m.rows * m.cols) [c0, c1, c2]).flatten }

/-- Element-wise absolute difference `cv::absdiff(a, b, dst)` on 8-bit data. -/
def absdiff (a b : Mat) : Mat :=
  { rows := a.rows, cols := a.cols, type := a.type,
    data := (List.range (a.rows * a.cols * a.channels)).map
      (fun i => Int.natAbs ((a.elem i : Int) - (b.elem i : Int))) }

/-- Sum of channel `c` over all pixels. -/
def channelSum (m : Mat) (c : Nat) : Nat :=
  ((List.range (m.rows * m.cols)).map (fun p => m.elem (p * m.channels + c))).sum

/-- Component `c` of `cv::mean(m)` in exact arithmetic: the channel's mean, `0`
past the channel count (`meanDouble` is the same in `double`). -/
def mean (m : Mat) (c : Nat) : ℚ :=
  if c < m.channels then (channelSum m c : ℚ) / ((m.rows * m.cols : Nat) : ℚ) else 0

/-- The difference magnitude of `hasFrameChanged` in exact arithmetic:
`meanDiff[0] + meanDiff[1] + meanDiff[2]` of `cv::mean(absdiff(newFrame, lastFrame))`
(`totalDiffDouble` is the same in `double`). -/
def totalDiff (newFrame lastFrame : Mat) : ℚ :=
  mean (absdiff newFrame lastFrame) 0 + mean (absdiff newFrame lastFrame) 1
    + mean (absdiff newFrame lastFrame) 2

/-! ## Binary64 arithmetic (`double`) -/

/-- Number of binary digits of `n` below a bound `fuel` on their count. -/
def bitLengthAux : Nat → Nat → Nat
  | 0, _ => 0
  | fuel + 1, n => if n = 0 then 0 else bitLengthAux fuel (n / 2) + 1

/-- Number of binary digits of `n` (`0` for `0`). -/
def bitLength (n : Nat) : Nat := bitLengthAux n n

/-- A finite non-negative `double`: the value `man * 2 ^ exp`.  The exponent is
not bounded; no operation below leaves the normal range of binary64 for a frame
of fewer than `2 ^ 900` pixels. -/
structure Binary64 where
  man : Nat
  exp : Int
deriving DecidableEq, Repr

/-- The value of a `double` as a rational number. -/
def Binary64.toRat (x : Binary64) : ℚ := (x.man : ℚ) * (2 : ℚ) ^ x.exp

/-- The `double` nearest to the exact value `man * 2 ^ exp`: 53 significant
bits, round to nearest, ties to even. -/
def Binary64.round (man : Nat) (exp : Int) : Binary64 :=
  if bitLength man ≤ 53 then ⟨man, exp⟩
  else
    let shift := bitLength man - 53
    let top := man / 2 ^ shift
    let rest := man % 2 ^ shift
    let half := 2 ^ (shift - 1)
    if rest > half ∨ (rest = half ∧ top % 2 = 1) then ⟨top + 1, exp + shift⟩
    else ⟨top, exp + shift⟩

/-- Conversion of a non-negative integer to `double`. -/
def Binary64.ofNat (n : Nat) : Binary64 := Binary64.round n 0

/-- The `double` product `a * b`. -/
def Binary64.mul (a b : Binary64) : Binary64 :=
  Binary64.round (a.man * b.man) (a.exp + b.exp)

/-- The `double` sum `a + b`. -/
def Binary64.add (a b : Binary64) : Binary64 :=
  Binary64.round
    (a.man * 2 ^ (a.exp - min a.exp b.exp).toNat + b.man * 2 ^ (b.exp - min a.exp b.exp).toNat)
    (min a.exp b.exp)

/-- The `double` quotient `1. / n` for `n > 0`: the quotient is cut after
`bitLength n + 63` binary places and a last bit records whether anything was cut
off, which decides the rounding as the exact quotient does. -/
def Binary64.recip (n : Nat) : Binary64 :=
  Binary64.round
    (2 * (2 ^ (bitLength n + 63) / n) + (if 2 ^ (bitLength n + 63) % n = 0 then 0 else 1))
    (-((bitLength n + 63 : Nat) : Int) - 1)

/-- The factor `nz0 ? 1./nz0 : 0` of `cv::mean`. -/
def meanScale (n : Nat) : Binary64 := if n = 0 then ⟨0, 0⟩ else Binary64.recip n

/-- Component `c` of `cv::mean(m)` as computed: the integer channel sum,
converted to `double`, times `1./N`; `0` past the channel count. -/
def meanDouble (m : Mat) (c : Nat) : Binary64 :=
  Binary64.mul (Binary64.ofNat (if c < m.channels then channelSum m c else 0))
    (meanScale (m.rows * m.cols))

/-- The difference magnitude of `hasFrameChanged` as computed:
`meanDiff[0] + meanDiff[1] + meanDiff[2]` in `double`, added from the left. -/
def totalDiffDouble (newFrame lastFrame : Mat) : Binary64 :=
  Binary64.add
    (Binary64.add (meanDouble (absdiff newFrame lastFrame) 0)
      (meanDouble (absdiff newFrame lastFrame) 1))
    (meanDouble (absdiff newFrame lastFrame) 2)

/-! ## External image library -/

/-- A pixel position `cv::Point(x, y)`. -/
abbrev Point := Int × Int

/-- A colour `cv::Scalar(v0, v1, v2)`. -/
abbrev Scalar := Int × Int × Int

/-- OpenCV and libm as used by the backend.  A drawing call works in place and
returns the new pixel buffer of its target; `imencode` returns the encoded bytes
or `none` when the codec rejects the frame.  The last seven fields are the float
expressions of `createFakeFrame`, each a function of exactly what it reads. -/
structure Cv where
  resize : Mat → Nat → Nat → List Nat
  imencode : String → Mat → List Int → Option (List Nat)
  addWeighted : Mat → ℚ → Mat → ℚ → ℚ → List Nat
  rectangle : Mat → Point → Point → Scalar → Int → List Nat
  putText : Mat → String → Point → ℚ → Scalar → Int → List Nat
  line : Mat → Point → Point → Scalar → Int → List Nat
  circle : Mat → Point → Int → Scalar → Int → List Nat
  gradR : Int → Nat → Nat → Int
  gradG : Int → Nat → Nat → Int
  gradB : Int → Nat → Nat → Int
  crossSize : Int → Int
  orbitDX : Int → Int
  orbitDY : Int → Int
  pulseAlpha : Int → Int

/-- In-place drawing on a frame: the header stays, the buffer is replaced. -/
def Mat.draw (m : Mat) (f : Mat → List Nat) : Mat := { m with data := f m }

/-- Bounded value `std::clamp(v, lo, hi)`. -/
def clamp (v lo hi : Int) : Int := if v < lo then lo else if hi < v then hi else v

/-- Grid lines of `createFakeFrame`: `for (x = 80; x < cols; x += 80)` vertical lines. -/
def drawGridX (cv : Cv) : Nat → Int → Mat → Mat
  | 0, _, frame => frame
  | fuel + 1, x, frame =>
    if x < frame.cols then
      drawGridX cv fuel (x + 80)
        (frame.draw (fun f => cv.line f (x, 60) (x, (frame.rows : Int)) (80, 80, 80) 1))
    else frame

/-- Grid lines of `createFakeFrame`: `for (y = 80; y < rows; y += 80)` horizontal lines. -/
def drawGridY (cv : Cv) : Nat → Int → Mat → Mat
  | 0, _, frame => frame
  | fuel + 1, y, frame =>
    if y < frame.rows then
      drawGridY cv fuel (y + 80)
        (frame.draw (fun f => cv.line f (0, y) ((frame.cols : Int), y) (80, 80, 80) 1))
    else frame

/-- Gradient background of the simulated Basler frame: one `Vec3b(b, g, r)` per pixel. -/
def baslerBackground (cv : Cv) (frameNumber : Int) (rows cols : Nat) : List Nat :=
  (List.range rows).flatMap (fun y => (List.range cols).flatMap (fun x =>
    [ (clamp (cv.gradB frameNumber x y) 30 160).toNat,
      (clamp (cv.gradG frameNumber x y) 40 180).toNat,
      (clamp (cv.gradR frameNumber x y) 50 200).toNat ]))

/-- Synthetic frame generator `Backend::createFakeFrame(cameraType, frameNumber)`.
Besides its two arguments the body reads the wall clock
(`std::chrono::system_clock::now()`, here `wallSeconds`, whose last six decimal
digits are printed; the clock has more than six digits) and the process-wide
random generator (`cv::randu`, here `noise`, the buffer it fills). -/
def createFakeFrame (cv : Cv) (cameraType : String) (frameNumber : Int)
    (wallSeconds : Nat) (noise : List Nat) : Mat :=
  if cameraType = "basler" then
    let frame := Mat.zeros 480 640 CV_8UC3
    let frame := { frame with data := baslerBackground cv frameNumber frame.rows frame.cols }
    let frame := frame.draw (fun f => cv.rectangle f (0, 0) ((f.cols : Int), 60) (20, 20, 20) (-1))
    let frame := frame.draw (fun f =>
      cv.putText f "BASLER acA1300-60gm (Simulated)" (20, 25) 0.6 (200, 200, 200) 1)
    let frame := frame.draw (fun f =>
      cv.putText f ("Frame: " ++ toString frameNumber) (20, 45) 0.5 (150, 150, 150) 1)
    let timeStr := toString wallSeconds
    let frame := frame.draw (fun f =>
      cv.putText f ("TS: " ++ timeStr.drop (timeStr.length - 6)) ((f.cols : Int) - 120, 25) 0.4
        (150, 150, 150) 1)
    let centerX : Int := (frame.cols / 2 : Nat)
    let centerY : Int := (frame.rows / 2 : Nat)
    let crossSize := cv.crossSize frameNumber
    let frame := frame.draw (fun f =>
      cv.line f (centerX - crossSize, centerY) (centerX + crossSize, centerY) (0, 255, 0) 2)
    let frame := frame.draw (fun f =>
      cv.line f (centerX, centerY - crossSize) (centerX, centerY + crossSize) (0, 255, 0) 2)
    let orbitX := centerX + cv.orbitDX frameNumber
    let orbitY := centerY + cv.orbitDY frameNumber
    let frame := frame.draw (fun f => cv.circle f (orbitX, orbitY) 15 (255, 100, 0) (-1))
    let frame := frame.draw (fun f => cv.circle f (orbitX, orbitY) 20 (255, 255, 255) 2)
    let frame := drawGridX cv frame.cols 80 frame
    let frame := drawGridY cv frame.rows 80 frame
    let frame := frame.draw (fun f =>
      cv.rectangle f ((f.cols : Int) - 150, 70) ((f.cols : Int) - 10, 120) (40, 40, 40) (-1))
    let frame := frame.draw (fun f =>
      cv.putText f "STATUS: ACTIVE" ((f.cols : Int) - 140, 90) 0.4 (0, 255, 0) 1)
    let frame := frame.draw (fun f =>
      cv.putText f "FPS: 20" ((f.cols : Int) - 140, 105) 0.4 (200, 200, 200) 1)
    frame
  else if cameraType = "monitoring" then
    let frame := Mat.zeros 240 320 CV_8UC3
    let frame := frame.setTo 30 30 40
    let noiseMat : Mat := ⟨frame.rows, frame.cols, CV_8UC3, noise⟩
    let frame := frame.draw (fun f => cv.addWeighted f 0.8 noiseMat 0.2 0)
    let frame := frame.draw (fun f =>
      cv.putText f "RTSP CONNECTION LOST" (20, 100) 0.5 (0, 100, 255) 1)
    let frame := frame.draw (fun f =>
      cv.putText f "Attempting reconnection..." (30, 130) 0.4 (200, 200, 200) 1)
    let phase := Int.tmod (Int.tdiv frameNumber 10) 4
    let dots := String.mk (List.replicate (phase + 1).toNat '.')
    let frame := frame.draw (fun f =>
      cv.putText f ("Connecting" ++ dots) (60, 160) 0.4 (255, 255, 0) 1)
    let pulseAlpha := cv.pulseAlpha frameNumber
    let frame := frame.draw (fun f => cv.circle f (160, 200) 8 (0, pulseAlpha, 255) (-1))
    frame
  else
    Mat.zeros 240 320 CV_8UC3

/-! ## Cameras (`Camera`, `RtspCamera`) -/

/-- A camera source as the scheduler sees it: its channel, whether the capture
device is opened, the capture-loop flag and the single-slot latest frame. -/
structure Camera where
  channel : String
  opened : Bool
  running : Bool
  latestFrame : Mat
deriving DecidableEq, Repr

/-- Connection test `RtspCamera::isConnected()`. -/
def Camera.isConnected (c : Camera) : Bool := c.opened

/-- Frame fetch `RtspCamera::grabFrame(frame)`: `none` stands for `false`. -/
def Camera.grabFrame (c : Camera) : Option Mat :=
  if !c.isConnected then none
  else if c.latestFrame.empty then none
  else some c.latestFrame

/-- Stream start `RtspCamera::startStream(url)`; `openOk` is the outcome of
`cv::VideoCapture::open`. -/
def Camera.startStream (c : Camera) (openOk : Bool) : Camera :=
  let c := if c.running then { c with running := false } else c
  let c := { c with running := true, opened := openOk }
  if !c.opened then { c with running := false } else c

/-! ## Backend state -/

/-- Socket states `QAbstractSocket::SocketState`. -/
inductive SocketState where
  | UnconnectedState
  | HostLookupState
  | ConnectingState
  | ConnectedState
  | BoundState
  | ListeningState
  | ClosingState
deriving DecidableEq, Repr

/-- Externally visible actions of the backend, in program order. -/
inductive Event where
  | sent (client : Nat) (message : String)
  | timerStart (interval : Int)
  | timerStop
  | encodeCall (channel : String)
deriving DecidableEq, Repr

/-- The members of `class Backend` (backend.h); `timerActive` is `timer->isActive()`. -/
structure Backend where
  clients : List Nat
  timerActive : Bool
  cameras : List Camera
  frameCounter : Int
  cameraIntervals : QMap Int
  cameraCounters : QMap Int
  cameraFailed : QMap Bool
  lastFrameTime : QMap Int
  connectionCheckCounter : Int
  lastPerformanceReport : Int
  processedFrames : Int
  lastEncodedFrames : QMap (List Nat)
  frameChangeThreshold : QMap Int
  lastRawFrames : QMap Mat
  lastClientCleanup : Int
deriving DecidableEq, Repr

/-- Constant `timerInterval` of backend.h. -/
def timerInterval : Int := 5

/-- Constant `connectionCheckInterval` of backend.h. -/
def connectionCheckInterval : Int := 5000

/-- Constant `clientCleanupInterval` of backend.h. -/
def clientCleanupInterval : Int := 30000

/-- What one timer tick reads from outside the object: the clock
(`QDateTime::currentMSecsSinceEpoch`), the socket states, the outcome of a
reconnection attempt, the wall clock in seconds and the noise `cv::randu` draws. -/
structure TickEnv where
  now : Int
  sock : Nat → SocketState
  reopen : Bool
  wallSeconds : Nat
  noise : List Nat

/-- The constructor `Backend::Backend`: one RTSP camera on channel "monitoring",
whose stream opened or not, and the synthetic "basler" channel. -/
def Backend.init (currentTime : Int) (rtspOpened : Bool) : Backend :=
  { clients := []
    timerActive := false
    cameras := [Camera.startStream ⟨"monitoring", false, false, default⟩ rtspOpened]
    frameCounter := 0
    cameraIntervals := QMap.assign (QMap.assign [] "monitoring" 40) "basler" 50
    cameraCounters := QMap.assign (QMap.assign [] "monitoring" 0) "basler" 0
    cameraFailed := QMap.assign (QMap.assign [] "monitoring" (!rtspOpened)) "basler" false
    lastFrameTime := QMap.assign (QMap.assign [] "monitoring" currentTime) "basler" currentTime
    connectionCheckCounter := 0
    lastPerformanceReport := currentTime
    processedFrames := 0
    lastEncodedFrames := []
    frameChangeThreshold := QMap.assign (QMap.assign [] "monitoring" 5000) "basler" 2000
    lastRawFrames := []
    lastClientCleanup := currentTime }

/-! ## Operations of `Backend` -/

/-- Removal `QList::removeAll(value)`. -/
def removeAll (l : List Nat) (c : Nat) : List Nat := l.filter (fun x => x != c)

/-- Slot `Backend::onNewConnection`; `client` is `nextPendingConnection()`. -/
def onNewConnection (s : Backend) (client : Nat) : Backend × List Event :=
  let s := { s with clients := s.clients ++ [client] }
  if !s.timerActive then
    ({ s with timerActive := true }, [Event.timerStart timerInterval])
  else (s, [])

/-- Slot `Backend::onClientDisconnected`; `sender` is `qobject_cast<QWebSocket*>(sender())`. -/
def onClientDisconnected (s : Backend) (sender : Option Nat) : Backend × List Event :=
  match sender with
  | some client =>
    let s := { s with clients := removeAll s.clients client }
    if s.clients.isEmpty then
      ({ s with timerActive := false }, [Event.timerStop])
    else (s, [])
  | none => (s, [])

/-- Lookup `Backend::getCameraByChannel`: the first camera of that channel. -/
def getCameraByChannel (s : Backend) (channel : String) : Option Camera :=
  s.cameras.find? (fun c => c.channel = channel)

/-- Change detector `Backend::hasFrameChanged`, the magnitude taken in exact
arithmetic (`hasFrameChangedDouble` below takes it in `double`). -/
def hasFrameChanged (s : Backend) (newFrame : Mat) (channel : String) : Bool × Backend :=
  if !QMap.contains s.lastRawFrames channel then (true, s)
  else
    let r1 := QMap.index s.lastRawFrames channel
    let s := { s with lastRawFrames := r1.2 }
    if r1.1.empty then (true, s)
    else
      let r2 := QMap.index s.lastRawFrames channel
      let s := { s with lastRawFrames := r2.2 }
      let lastFrame := r2.1
      if newFrame.sizeOrTypeDiffers lastFrame then (true, s)
      else
        let threshold := QMap.value s.frameChangeThreshold channel 3000
        (decide (totalDiff newFrame lastFrame > (threshold : ℚ)), s)

/-- Change detector `Backend::hasFrameChanged` with the arithmetic of its last
lines in `double`: the means of `cv::mean`, their sum, and the comparison with
the threshold converted to `double`. -/
def hasFrameChangedDouble (s : Backend) (newFrame : Mat) (channel : String) : Bool × Backend :=
  if !QMap.contains s.lastRawFrames channel then (true, s)
  else
    let r1 := QMap.index s.lastRawFrames channel
    let s := { s with lastRawFrames := r1.2 }
    if r1.1.empty then (true, s)
    else
      let r2 := QMap.index s.lastRawFrames channel
      let s := { s with lastRawFrames := r2.2 }
      let lastFrame := r2.1
      if newFrame.sizeOrTypeDiffers lastFrame then (true, s)
      else
        let threshold := QMap.value s.frameChangeThreshold channel 3000
        (decide ((totalDiffDouble newFrame lastFrame).toRat > (threshold : ℚ)), s)

/-- Cache update `Backend::cacheFrame`. -/
def cacheFrame (s : Backend) (frame : Mat) (encodedData : List Nat) (channel : String) :
    Backend :=
  let s := { s with lastRawFrames := QMap.assign s.lastRawFrames channel frame }
  { s with lastEncodedFrames := QMap.assign s.lastEncodedFrames channel encodedData }

/-- Fan-out `Backend::sendImage`. -/
def sendImage (sock : Nat → SocketState) (s : Backend) (channel : String)
    (imageData : List Nat) : Backend × List Event :=
  if s.clients.isEmpty then (s, [])
  else
    let base64Buffer := toBase64 imageData
    let messageBuffer := channel ++ ":" ++ String.mk base64Buffer
    (s, (s.clients.filter (fun client => sock client = SocketState.ConnectedState)).map
      (fun client => Event.sent client messageBuffer))

/-- Codec flag `cv::IMWRITE_JPEG_QUALITY`. -/
def IMWRITE_JPEG_QUALITY : Int := 1

/-- Codec flag `cv::IMWRITE_JPEG_PROGRESSIVE`. -/
def IMWRITE_JPEG_PROGRESSIVE : Int := 2

/-- Codec flag `cv::IMWRITE_JPEG_OPTIMIZE`. -/
def IMWRITE_JPEG_OPTIMIZE : Int := 3

/-- Encoding parameters of the "monitoring" channel. -/
def monitoringParams : List Int :=
  [IMWRITE_JPEG_QUALITY, 55, IMWRITE_JPEG_OPTIMIZE, 1, IMWRITE_JPEG_PROGRESSIVE, 0]

/-- Encoding parameters of every other channel. -/
def baslerParams : List Int :=
  [IMWRITE_JPEG_QUALITY, 75, IMWRITE_JPEG_OPTIMIZE, 1, IMWRITE_JPEG_PROGRESSIVE, 0]

/-- The parameter choice `(channel == "monitoring") ? monitoringParams : baslerParams`. -/
def encodeParams (channel : String) : List Int :=
  if channel = "monitoring" then monitoringParams else baslerParams

/-- Pipeline step `Backend::encodeAndSendFrame`; its trace starts with the entry marker. -/
def encodeAndSendFrame (cv : Cv) (sock : Nat → SocketState) (s : Backend) (frame : Mat)
    (channel : String) : Backend × List Event :=
  if frame.empty || s.clients.isEmpty then (s, [Event.encodeCall channel])
  else
    let r := hasFrameChanged s frame channel
    let s := r.2
    if !r.1 && QMap.contains s.lastEncodedFrames channel then
      let c := QMap.index s.lastEncodedFrames channel
      let s := { s with lastEncodedFrames := c.2 }
      let out := sendImage sock s channel c.1
      (out.1, Event.encodeCall channel :: out.2)
    else
      match cv.imencode ".jpg" frame (encodeParams channel) with
      | none => (s, [Event.encodeCall channel])
      | some buffer =>
        let s := cacheFrame s frame buffer channel
        let out := sendImage sock s channel buffer
        (out.1, Event.encodeCall channel :: out.2)

/-- Reply fan-out `Backend::sendResponse`. -/
def sendResponse (sock : Nat → SocketState) (s : Backend) (response : String) :
    Backend × List Event :=
  (s, (s.clients.filter (fun client => sock client = SocketState.ConnectedState)).map
    (fun client => Event.sent client ("response:" ++ response)))

/-- Outcome of `QJsonDocument::fromJson`. -/
inductive QJsonDocument where
  | null
  | array
  | object
deriving DecidableEq, Repr

/-- Test `!doc.isNull() && doc.isObject()`. -/
def QJsonDocument.isObject (d : QJsonDocument) : Bool := d = QJsonDocument.object

/-- Slot `Backend::onTextMessageReceived`; `fromJson` is the Qt JSON reader. -/
def onTextMessageReceived (fromJson : String → QJsonDocument) (sock : Nat → SocketState)
    (s : Backend) (message : String) : Backend × List Event :=
  let separatorIndex := indexOf message ':'
  if separatorIndex = -1 then sendResponse sock s "Error: Invalid message format"
  else
    let type := left message separatorIndex
    let data := mid message (separatorIndex + 1)
    if type = "AllFormData" then
      let doc := fromJson data
      if doc.isObject then sendResponse sock s "داده‌های فرم با موفقیت دریافت شد"
      else sendResponse sock s "Error: Invalid JSON"
    else sendResponse sock s ("پیام دریافت شد: " ++ type)

/-- Replace the first camera of a channel (the object behind the pointer changes). -/
def updateCamera : List Camera → String → Camera → List Camera
  | [], _, _ => []
  | c :: cs, channel, c2 => if c.channel = channel then c2 :: cs else c :: updateCamera cs channel c2

/-- Health check `Backend::checkCameraConnections`. -/
def checkCameraConnections (reopen : Bool) (s : Backend) : Backend :=
  match getCameraByChannel s "monitoring" with
  | some rtspCamera =>
    if !rtspCamera.isConnected then
      let restarted := rtspCamera.startStream reopen
      let s := { s with cameras := updateCamera s.cameras "monitoring" restarted }
      { s with cameraFailed := QMap.assign s.cameraFailed "monitoring" (!restarted.isConnected) }
    else s
  | none => s

/-- Sweep `Backend::cleanupDisconnectedClients`. -/
def cleanupDisconnectedClients (sock : Nat → SocketState) (s : Backend) : Backend :=
  let disconnectedClients :=
    s.clients.filter (fun client => sock client ≠ SocketState.ConnectedState)
  if !disconnectedClients.isEmpty then
    { s with clients := disconnectedClients.foldl removeAll s.clients }
  else s

/-- The condition of line 331 of backend.cpp: the frame obtained from the RTSP
camera, `none` when there is no camera, it is not connected, the grab fails or
the frame is empty. -/
def grabMonitoring (s : Backend) : Option Mat :=
  match getCameraByChannel s "monitoring" with
  | some rtspCamera =>
    if rtspCamera.isConnected then
      match rtspCamera.grabFrame with
      | some frame => if !frame.empty then some frame else none
      | none => none
    else none
  | none => none

/-- Lines 313-321 of `processFrames`: counter, clock-independent bookkeeping and the
periodic health check. -/
def processFramesPrologue (env : TickEnv) (s : Backend) : Backend :=
  let s := { s with frameCounter := s.frameCounter + 1 }
  let s := { s with connectionCheckCounter := s.connectionCheckCounter + timerInterval }
  if s.connectionCheckCounter ≥ connectionCheckInterval then
    let s := checkCameraConnections env.reopen s
    { s with connectionCheckCounter := 0 }
  else s

/-- Lines 325-350 of `processFrames`: the "monitoring" channel.  Yields the state,
whether the channel counts as active, and the trace. -/
def processFramesMonitoring (cv : Cv) (env : TickEnv) (s : Backend) :
    Backend × Bool × List Event :=
  let rtspChannel := "monitoring"
  let t := QMap.index s.lastFrameTime rtspChannel
  let s := { s with lastFrameTime := t.2 }
  let i := QMap.index s.cameraIntervals rtspChannel
  let s := { s with cameraIntervals := i.2 }
  if env.now - t.1 ≥ i.1 then
    match grabMonitoring s with
    | some frame =>
      let resizedFrame : Mat := ⟨240, 320, frame.type, cv.resize frame 320 240⟩
      let out := encodeAndSendFrame cv env.sock s resizedFrame rtspChannel
      let s := out.1
      let s := { s with cameraFailed := QMap.assign s.cameraFailed rtspChannel false }
      let s := { s with processedFrames := s.processedFrames + 1 }
      let s := { s with lastFrameTime := QMap.assign s.lastFrameTime rtspChannel env.now }
      (s, true, out.2)
    | none =>
      let fakeFrame := createFakeFrame cv "monitoring" s.frameCounter env.wallSeconds env.noise
      let out := encodeAndSendFrame cv env.sock s fakeFrame rtspChannel
      let s := out.1
      let s := { s with cameraFailed := QMap.assign s.cameraFailed rtspChannel true }
      let s := { s with lastFrameTime := QMap.assign s.lastFrameTime rtspChannel env.now }
      (s, false, out.2)
  else
    let f := QMap.index s.cameraFailed rtspChannel
    let s := { s with cameraFailed := f.2 }
    (s, !f.1, [])

/-- Lines 352-363 of `processFrames`: the synthetic "basler" channel. -/
def processFramesBasler (cv : Cv) (env : TickEnv) (s : Backend) :
    Backend × Bool × List Event :=
  let baslerChannel := "basler"
  let t := QMap.index s.lastFrameTime baslerChannel
  let s := { s with lastFrameTime := t.2 }
  let i := QMap.index s.cameraIntervals baslerChannel
  let s := { s with cameraIntervals := i.2 }
  if env.now - t.1 ≥ i.1 then
    let fakeFrame := createFakeFrame cv "basler" s.frameCounter env.wallSeconds env.noise
    let out := encodeAndSendFrame cv env.sock s fakeFrame baslerChannel
    let s := out.1
    let s := { s with cameraFailed := QMap.assign s.cameraFailed baslerChannel false }
    let s := { s with processedFrames := s.processedFrames + 1 }
    let s := { s with lastFrameTime := QMap.assign s.lastFrameTime baslerChannel env.now }
    (s, true, out.2)
  else (s, true, [])

/-- Lines 365-383 of `processFrames`: statistics, viewer sweep and the idle rule. -/
def processFramesEpilogue (env : TickEnv) (s : Backend) (anyActive : Bool) :
    Backend × List Event :=
  let s :=
    if env.now - s.lastPerformanceReport ≥ 10000 then
      { s with processedFrames := 0, lastPerformanceReport := env.now }
    else s
  let s :=
    if env.now - s.lastClientCleanup ≥ clientCleanupInterval then
      let s := cleanupDisconnectedClients env.sock s
      { s with lastClientCleanup := env.now }
    else s
  if !anyActive then ({ s with timerActive := false }, [Event.timerStop])
  else (s, [])

/-- Slot `Backend::processFrames`, one timer tick. -/
def processFrames (cv : Cv) (env : TickEnv) (s : Backend) : Backend × List Event :=
  if s.clients.isEmpty then (s, [])
  else
    let s := processFramesPrologue env s
    let m := processFramesMonitoring cv env s
    let b := processFramesBasler cv env m.1
    let anyActive := m.2.1 || b.2.1
    let e := processFramesEpilogue env b.1 anyActive
    (e.1, m.2.2 ++ b.2.2 ++ e.2)

/-! ## Derived notions used in the statements -/

/-- The raw frame the cache holds for a channel (`lastRawFrames.value(channel)`). -/
def cachedFrame (s : Backend) (channel : String) : Mat :=
  QMap.value s.lastRawFrames channel default

/-- The threshold of a channel, `frameChangeThreshold.value(channel, 3000)`. -/
def thresholdOf (s : Backend) (channel : String) : Int :=
  QMap.value s.frameChangeThreshold channel 3000

/-- The texts handed to one viewer's socket, in order. -/
def sentTo (evs : List Event) (client : Nat) : List String :=
  evs.filterMap (fun e =>
    match e with
    | Event.sent c m => if c = client then some m else none
    | _ => none)

/-- The cadence test of `processFrames`:
`currentTime - lastFrameTime[channel] >= cameraIntervals[channel]`. -/
abbrev isDue (s : Backend) (now : Int) (channel : String) : Prop :=
  now - QMap.value s.lastFrameTime channel 0 ≥ QMap.value s.cameraIntervals channel 0

/-- Number of entries into `encodeAndSendFrame` for a channel in a trace. -/
def attempts (evs : List Event) (channel : String) : Nat :=
  evs.count (Event.encodeCall channel)

/-- The part of the wall clock that `createFakeFrame` prints on the "basler" frame:
the last six characters of its decimal form (`timeStr.substr(timeStr.length() - 6)`). -/
def clockDigits (wallSeconds : Nat) : String :=
  (toString wallSeconds).drop ((toString wallSeconds).length - 6)

/-- Whether an event is a message to a viewer. -/
def Event.isSent : Event → Bool
  | Event.sent _ _ => true
  | _ => false

/-- What the event loop delivers to the backend. -/
inductive Input where
  | connect (client : Nat)
  | disconnect (sender : Option Nat)
  | message (sock : Nat → SocketState) (text : String)
  | timeout (env : TickEnv)

/-- Whether an input is a new connection. -/
def Input.isConnect : Input → Bool
  | Input.connect _ => true
  | _ => false

/-- Dispatch of one input to its slot; the timer fires only while it is active. -/
def step (cv : Cv) (fromJson : String → QJsonDocument) (s : Backend) :
    Input → Backend × List Event
  | Input.connect client => onNewConnection s client
  | Input.disconnect sender => onClientDisconnected s sender
  | Input.message sock text => onTextMessageReceived fromJson sock s text
  | Input.timeout env => if s.timerActive then processFrames cv env s else (s, [])

/-- A run of the event loop over a sequence of inputs, with the accumulated trace. -/
def run (cv : Cv) (fromJson : String → QJsonDocument) : Backend → List Input → Backend × List Event
  | s, [] => (s, [])
  | s, i :: rest =>
    ((run cv fromJson (step cv fromJson s i).1 rest).1,
      (step cv fromJson s i).2 ++ (run cv fromJson (step cv fromJson s i).1 rest).2)

/-- The cache of a channel as a reader sees it: whether a raw frame is stored and
which, whether a payload is stored and which. -/
def cacheEntry (s : Backend) (channel : String) : Bool × Mat × Bool × List Nat :=
  (QMap.contains s.lastRawFrames channel, QMap.value s.lastRawFrames channel default,
    QMap.contains s.lastEncodedFrames channel, QMap.value s.lastEncodedFrames channel default)

/-- Between two states every channel's cache entry is either the same or was
replaced as a whole by a non-empty frame and the bytes the codec gave for it
under the channel's parameters. -/
def CacheStep (cv : Cv) (s t : Backend) : Prop :=
  ∀ channel, cacheEntry t channel = cacheEntry s channel
    ∨ ∃ frame buffer, frame.empty = false
        ∧ cv.imencode ".jpg" frame (encodeParams channel) = some buffer
        ∧ cacheEntry t channel = (true, frame, true, buffer)

/-- The cache invariant: for every channel a payload is stored exactly when a
non-empty raw frame is stored, and the stored payload is the codec's output for
the stored raw frame under the channel's parameters. -/
def CacheConsistent (cv : Cv) (s : Backend) : Prop :=
  ∀ channel,
    (QMap.contains s.lastEncodedFrames channel = true
      ↔ QMap.contains s.lastRawFrames channel = true ∧ (cachedFrame s channel).empty = false)
    ∧ (QMap.contains s.lastEncodedFrames channel = true →
        cv.imencode ".jpg" (cachedFrame s channel) (encodeParams channel)
          = some (QMap.value s.lastEncodedFrames channel default))

/-- The states the backend can be in: the state left by the constructor, the
state after any slot invocation, and any of these after the capture thread or
the network changed what the cameras report. -/
inductive Reachable (cv : Cv) (fromJson : String → QJsonDocument) : Backend → Prop where
  | init (currentTime : Int) (rtspOpened : Bool) :
      Reachable cv fromJson (Backend.init currentTime rtspOpened)
  | slot (s : Backend) (i : Input) :
      Reachable cv fromJson s → Reachable cv fromJson (step cv fromJson s i).1
  | capture (s : Backend) (cameras : List Camera) :
      Reachable cv fromJson s → Reachable cv fromJson { s with cameras := cameras }

/-- The change thresholds the constructor configures: 5000 for "monitoring" and
2000 for "basler"; any other channel reads the default 3000. -/
def configuredThresholds : QMap Int :=
  QMap.assign (QMap.assign [] "monitoring" 5000) "basler" 2000

/-! ## Concrete inputs for evaluated examples -/

/-- A 1x1 three-channel frame with the given pixel. -/
def pixelFrame (b g r : Nat) : Mat := ⟨1, 1, CV_8UC3, [b, g, r]⟩

/-- A state whose cache holds the pixel (10, 10, 10) with payload `[7, 7]` on
channel "monitoring", with threshold 6 there, and one viewer. -/
def smallCacheState : Backend :=
  { Backend.init 0 false with
    clients := [1]
    timerActive := true
    lastRawFrames := [("monitoring", pixelFrame 10 10 10)]
    lastEncodedFrames := [("monitoring", [7, 7])]
    frameChangeThreshold := [("monitoring", 6)] }

/-- A socket table in which viewer 1 is connected and every other socket is closing. -/
def onlyFirstConnected : Nat → SocketState :=
  fun c => if c = 1 then SocketState.ConnectedState else SocketState.ClosingState

/-- The state `smallCacheState` with a second viewer. -/
def twoViewerState : Backend := { smallCacheState with clients := [1, 2] }

/-- A stand-in JSON reader that accepts only the empty object. -/
def toyJson : String → QJsonDocument :=
  fun text => if text = "\x7b\x7d" then QJsonDocument.object else QJsonDocument.null

/-- A state with no viewer and the timer stopped, cache as in `smallCacheState`. -/
def idleState : Backend := { smallCacheState with clients := [], timerActive := false }

/-- Rounding to the nearest integer, ties to even (`cvRound`). -/
def roundHalfEven (q : ℚ) : Int :=
  if q - (⌊q⌋ : ℚ) < 1 / 2 then ⌊q⌋
  else if 1 / 2 < q - (⌊q⌋ : ℚ) then ⌊q⌋ + 1
  else if ⌊q⌋ % 2 = 0 then ⌊q⌋ else ⌊q⌋ + 1

/-- Saturation to an unsigned 8-bit value (`cv::saturate_cast<uchar>`). -/
def saturateU8 (v : Int) : Nat := (clamp v 0 255).toNat

/-- A small instance of the image library for evaluating examples: drawing calls
leave the buffer as it is, `resize` samples the nearest source element,
`addWeighted` is the rounded saturated weighted sum, the float expressions are
constants, and the codec stores the bytes of a frame whose buffer has the length
its header announces and rejects any other frame. -/
def plainCv : Cv :=
  { resize := fun f w h =>
      (List.range (h * w * f.channels)).map (fun i =>
        f.elem (((i / f.channels / w * f.rows / h) * f.cols + i / f.channels % w * f.cols / w)
          * f.channels + i % f.channels))
    imencode := fun _ f _ =>
      if f.data.length = f.rows * f.cols * f.channels then some (f.data.map (fun v => v % 256))
      else none
    addWeighted := fun a alpha b beta gamma =>
      List.zipWith
        (fun (x y : Nat) => saturateU8 (roundHalfEven (alpha * (x : ℚ) + beta * (y : ℚ) + gamma)))
        a.data b.data
    rectangle := fun f _ _ _ _ => f.data
    putText := fun f _ _ _ _ _ => f.data
    line := fun f _ _ _ _ => f.data
    circle := fun f _ _ _ _ => f.data
    gradR := fun _ _ _ => 120
    gradG := fun _ _ _ => 100
    gradB := fun _ _ _ => 80
    crossSize := fun _ => 30
    orbitDX := fun _ => 80
    orbitDY := fun _ => 0
    pulseAlpha := fun _ => 100 }

/-- A tick at clock reading `now`: viewer 1 connected, reconnection failing, noise all `v`. -/
def tickAt (now : Int) (v : Nat) : TickEnv :=
  { now := now
    sock := onlyFirstConnected
    reopen := false
    wallSeconds := 1700000000
    noise := List.replicate 230400 v }

/-- A frame whose buffer is shorter than its header announces. -/
def truncatedFrame : Mat := ⟨1, 1, CV_8UC3, [200, 200]⟩

/-- A state one tick before both channels are due at clock 100: one viewer, RTSP
camera closed, last frames served at 50, empty caches. -/
def activeState : Backend :=
  { Backend.init 50 false with clients := [1], timerActive := true }

/-- Noise that is zero except for the value 45 in the first element. -/
def speckleNoise : List Nat := 45 :: List.replicate 230399 0

/-- The synthetic "monitoring" frame number 1 of `plainCv` for all-zero noise. -/
def warmFrame : Mat :=
  createFakeFrame plainCv "monitoring" 1 1700000000 (List.replicate 230400 0)

/-- The bytes the codec of `plainCv` gives for `warmFrame`. -/
def warmPayload : List Nat := warmFrame.data.map (fun v => v % 256)

/-- A tick at clock 30000 in which every viewer socket is found closing. -/
def sweepTick : TickEnv :=
  { now := 30000
    sock := fun _ => SocketState.ClosingState
    reopen := false
    wallSeconds := 1700000030
    noise := List.replicate 230400 0 }

/-- The run in which the constructor ran at clock 0, viewer 1 connected, and the
timer fired once at clock 30000 with the socket of viewer 1 closing. -/
def sweptRun : Backend × List Event :=
  run plainCv toyJson (Backend.init 0 false) [Input.connect 1, Input.timeout sweepTick]

/-- The run in which the constructor ran at clock 50 with the RTSP stream closed,
viewer 1 connected, and the timer fired once at clock 95 with all-zero noise. -/
def firstTickRun : Backend × List Event :=
  run plainCv toyJson (Backend.init 50 false) [Input.connect 1, Input.timeout (tickAt 95 0)]

/-- A state whose cache holds a black frame of five pixels on "monitoring", with
threshold 3 there, and one viewer. -/
def fivePixelState : Backend :=
  { Backend.init 0 false with
    clients := [1]
    timerActive := true
    lastRawFrames := [("monitoring", ⟨1, 5, CV_8UC3, List.replicate 15 0⟩)]
    lastEncodedFrames := [("monitoring", [7, 7])]
    frameChangeThreshold := [("monitoring", 3)] }

/-- A frame of five pixels, black but for the first pixel (1, 11, 3). -/
def fivePixelFrame : Mat := ⟨1, 5, CV_8UC3, [1, 11, 3] ++ List.replicate 12 0⟩

theorem QMap.value_of_not_contains {α : Type} (m : QMap α) (k : String) (d : α)
    (h : QMap.contains m k = false) : QMap.value m k d = d := by
  induction m with
  | nil => rfl
  | cons e m ih =>
    by_cases hk : e.1 = k
    · simp [QMap.contains, hk] at h
    · simp only [QMap.contains, hk, if_false] at h
      simp [QMap.value, hk, ih h]

theorem QMap.value_assign {α : Type} (m : QMap α) (k k2 : String) (v d : α) :
    QMap.value (QMap.assign m k v) k2 d = if k = k2 then v else QMap.value m k2 d := by
  induction m with
  | nil => simp [QMap.assign, QMap.value]
  | cons e m ih =>
    by_cases hk : e.1 = k
    · by_cases hk2 : k = k2
      · simp [QMap.assign, QMap.value, hk, hk2]
      · have : ¬ e.1 = k2 := fun h => hk2 (hk ▸ h)
        simp [QMap.assign, QMap.value, hk, hk2, this]
    · by_cases hk2 : e.1 = k2
      · have h3 : ¬ k = k2 := fun h => hk (h ▸ hk2)
        have h4 : ¬ k2 = k := fun h => h3 h.symm
        simp [QMap.assign, QMap.value, hk2, h3, h4]
      · simp [QMap.assign, QMap.value, hk, hk2, ih]

theorem QMap.contains_assign {α : Type} (m : QMap α) (k k2 : String) (v : α) :
    QMap.contains (QMap.assign m k v) k2 = (decide (k = k2) || QMap.contains m k2) := by
  induction m with
  | nil => by_cases h : k = k2 <;> simp [QMap.assign, QMap.contains, h]
  | cons e m ih =>
    by_cases hk : e.1 = k
    · by_cases hk2 : k = k2
      · simp [QMap.assign, QMap.contains, hk, hk2]
      · have : ¬ e.1 = k2 := fun h => hk2 (hk ▸ h)
        simp [QMap.assign, QMap.contains, hk, hk2, this]
    · by_cases hk2 : e.1 = k2
      · have h4 : ¬ k2 = k := fun h => hk (hk2.trans h)
        simp [QMap.assign, QMap.contains, hk2, h4]
      · simp [QMap.assign, QMap.contains, hk, hk2, ih]

theorem QMap.index_fst {α : Type} [Inhabited α] (m : QMap α) (k : String) :
    (QMap.index m k).1 = QMap.value m k default := by
  unfold QMap.index
  by_cases h : QMap.contains m k = true
  · simp [h]
  · have h2 : QMap.contains m k = false := by simpa using h
    simp [h2, QMap.value_of_not_contains m k default h2]

theorem QMap.index_snd_of_contains {α : Type} [Inhabited α] (m : QMap α) (k : String)
    (h : QMap.contains m k = true) : (QMap.index m k).2 = m := by
  simp [QMap.index, h]

theorem QMap.value_index_snd {α : Type} [Inhabited α] (m : QMap α) (k k2 : String) :
    QMap.value (QMap.index m k).2 k2 default = QMap.value m k2 default := by
  unfold QMap.index
  by_cases h : QMap.contains m k = true
  · simp [h]
  · have h2 : QMap.contains m k = false := by simpa using h
    simp only [h2, Bool.false_eq_true, if_false, QMap.value_assign]
    by_cases hk : k = k2
    · subst hk
      simp [QMap.value_of_not_contains m k default h2]
    · simp [hk]

/-! ## The change detector -/

theorem hasFrameChanged_snd (s : Backend) (newFrame : Mat) (channel : String) :
    (hasFrameChanged s newFrame channel).2 = s := by
  unfold hasFrameChanged
  by_cases hc : QMap.contains s.lastRawFrames channel = true
  · have e1 : (QMap.index s.lastRawFrames channel).2 = s.lastRawFrames :=
      QMap.index_snd_of_contains _ _ hc
    simp only [hc, Bool.not_true, Bool.false_eq_true, if_false, e1]
    split
    · rfl
    · split <;> rfl
  · have h2 : QMap.contains s.lastRawFrames channel = false := by simpa using hc
    simp [h2]

theorem hasFrameChanged_fst (s : Backend) (newFrame : Mat) (channel : String) :
    (hasFrameChanged s newFrame channel).1 =
      (!QMap.contains s.lastRawFrames channel || (cachedFrame s channel).empty
        || newFrame.sizeOrTypeDiffers (cachedFrame s channel)
        || decide (totalDiff newFrame (cachedFrame s channel) > (thresholdOf s channel : ℚ))) := by
  unfold hasFrameChanged cachedFrame thresholdOf
  by_cases hc : QMap.contains s.lastRawFrames channel = true
  · have e1 : (QMap.index s.lastRawFrames channel).2 = s.lastRawFrames :=
      QMap.index_snd_of_contains _ _ hc
    have e2 : (QMap.index s.lastRawFrames channel).1 = QMap.value s.lastRawFrames channel default :=
      QMap.index_fst _ _
    simp only [hc, Bool.not_true, Bool.false_eq_true, if_false, e1, e2, Bool.false_or]
    by_cases he : (QMap.value s.lastRawFrames channel default).empty = true
    · simp [he]
    · have he2 : (QMap.value s.lastRawFrames channel default).empty = false := by simpa using he
      simp only [he2, Bool.false_eq_true, if_false, Bool.false_or]
      by_cases hd : newFrame.sizeOrTypeDiffers (QMap.value s.lastRawFrames channel default) = true
      · simp [hd]
      · have hd2 : newFrame.sizeOrTypeDiffers (QMap.value s.lastRawFrames channel default) = false := by
          simpa using hd
        simp [hd2]
  · have h2 : QMap.contains s.lastRawFrames channel = false := by simpa using hc
    simp [h2]

theorem sizeOrTypeDiffers_iff (a b : Mat) :
    a.sizeOrTypeDiffers b = true ↔ (a.cols ≠ b.cols ∨ a.rows ≠ b.rows ∨ a.type ≠ b.type) := by
  unfold Mat.sizeOrTypeDiffers
  simp only [Bool.or_eq_true, bne_iff_ne, ne_eq, Prod.mk.injEq, not_and_or]
  tauto

theorem hasFrameChangedDouble_snd (s : Backend) (newFrame : Mat) (channel : String) :
    (hasFrameChangedDouble s newFrame channel).2 = s := by
  unfold hasFrameChangedDouble
  by_cases hc : QMap.contains s.lastRawFrames channel = true
  · have e1 : (QMap.index s.lastRawFrames channel).2 = s.lastRawFrames :=
      QMap.index_snd_of_contains _ _ hc
    simp only [hc, Bool.not_true, Bool.false_eq_true, if_false, e1]
    split
    · rfl
    · split <;> rfl
  · have h2 : QMap.contains s.lastRawFrames channel = false := by simpa using hc
    simp [h2]

theorem hasFrameChangedDouble_fst (s : Backend) (newFrame : Mat) (channel : String) :
    (hasFrameChangedDouble s newFrame channel).1 =
      (!QMap.contains s.lastRawFrames channel || (cachedFrame s channel).empty
        || newFrame.sizeOrTypeDiffers (cachedFrame s channel)
        || decide ((totalDiffDouble newFrame (cachedFrame s channel)).toRat
            > (thresholdOf s channel : ℚ))) := by
  unfold hasFrameChangedDouble cachedFrame thresholdOf
  by_cases hc : QMap.contains s.lastRawFrames channel = true
  · have e1 : (QMap.index s.lastRawFrames channel).2 = s.lastRawFrames :=
      QMap.index_snd_of_contains _ _ hc
    have e2 : (QMap.index s.lastRawFrames channel).1 = QMap.value s.lastRawFrames channel default :=
      QMap.index_fst _ _
    simp only [hc, Bool.not_true, Bool.false_eq_true, if_false, e1, e2, Bool.false_or]
    by_cases he : (QMap.value s.lastRawFrames channel default).empty = true
    · simp [he]
    · have he2 : (QMap.value s.lastRawFrames channel default).empty = false := by simpa using he
      simp only [he2, Bool.false_eq_true, if_false, Bool.false_or]
      by_cases hd : newFrame.sizeOrTypeDiffers (QMap.value s.lastRawFrames channel default) = true
      · simp [hd]
      · have hd2 : newFrame.sizeOrTypeDiffers (QMap.value s.lastRawFrames channel default)
            = false := by simpa using hd
        simp [hd2]
  · have h2 : QMap.contains s.lastRawFrames channel = false := by simpa using hc
    simp [h2]

/-! ## C2: the change detector -/

/-- C2: `hasFrameChanged`, with the magnitude as the code computes it in
`double` (`totalDiffDouble`: the three channel means of the absolute per-pixel
differences, added up), returns true exactly when no non-empty frame is cached
for the channel, or the new frame differs from the cached one in size or type,
or the magnitude is strictly greater than the channel's threshold; with a
cached frame of the same size and type a magnitude equal to the threshold gives
false and a larger one gives true; the state, caches included, is returned as
it was. -/
theorem hasFrameChanged_strict_threshold (s : Backend) (newFrame : Mat) (channel : String) :
    ((hasFrameChangedDouble s newFrame channel).1 = true ↔
      ((QMap.contains s.lastRawFrames channel = false ∨ (cachedFrame s channel).empty = true)
        ∨ (newFrame.cols ≠ (cachedFrame s channel).cols
            ∨ newFrame.rows ≠ (cachedFrame s channel).rows
            ∨ newFrame.type ≠ (cachedFrame s channel).type)
        ∨ (thresholdOf s channel : ℚ)
            < (totalDiffDouble newFrame (cachedFrame s channel)).toRat))
    ∧ (QMap.contains s.lastRawFrames channel = true → (cachedFrame s channel).empty = false →
        newFrame.sizeOrTypeDiffers (cachedFrame s channel) = false →
          ((totalDiffDouble newFrame (cachedFrame s channel)).toRat
              = (thresholdOf s channel : ℚ) →
            (hasFrameChangedDouble s newFrame channel).1 = false)
          ∧ ((thresholdOf s channel : ℚ)
              < (totalDiffDouble newFrame (cachedFrame s channel)).toRat →
            (hasFrameChangedDouble s newFrame channel).1 = true))
    ∧ (hasFrameChangedDouble s newFrame channel).2 = s := by
  refine ⟨?_, ?_, hasFrameChangedDouble_snd s newFrame channel⟩
  · rw [hasFrameChangedDouble_fst]
    simp only [Bool.or_eq_true, Bool.not_eq_true', decide_eq_true_eq, sizeOrTypeDiffers_iff,
      gt_iff_lt]
    tauto
  · intro hc he hd
    rw [hasFrameChangedDouble_fst]
    simp only [hc, he, hd, Bool.not_true, Bool.or_false, Bool.false_or, decide_eq_false_iff_not,
      decide_eq_true_eq, gt_iff_lt, not_lt]
    exact ⟨fun h => le_of_eq h, fun h => h⟩

/-- The `double` nearest to one fifth is `0x1.999999999999ap-3`. -/
theorem recip_five : Binary64.recip 5 = ⟨7205759403792794, -55⟩ := by decide

theorem totalDiffDouble_pixel_12 :
    (totalDiffDouble (pixelFrame 12 12 12) (pixelFrame 10 10 10)).toRat = 6 := by
  have h : totalDiffDouble (pixelFrame 12 12 12) (pixelFrame 10 10 10)
      = ⟨6755399441055744, -50⟩ := by decide
  rw [h]
  norm_num [Binary64.toRat]

theorem totalDiffDouble_pixel_13 :
    (totalDiffDouble (pixelFrame 13 12 12) (pixelFrame 10 10 10)).toRat = 7 := by
  have h : totalDiffDouble (pixelFrame 13 12 12) (pixelFrame 10 10 10)
      = ⟨7881299347898368, -50⟩ := by decide
  rw [h]
  norm_num [Binary64.toRat]

/-- For channel sums 1, 11 and 3 over five pixels the magnitude computed in
`double` is `3 + 2 ^ (-51)` (`0x1.8000000000001p+1`). -/
theorem totalDiffDouble_fivePixel :
    (totalDiffDouble fivePixelFrame ⟨1, 5, CV_8UC3, List.replicate 15 0⟩).toRat
      = 3 + 1 / 2 ^ 51 := by
  have h : totalDiffDouble fivePixelFrame ⟨1, 5, CV_8UC3, List.replicate 15 0⟩
      = ⟨6755399441055745, -51⟩ := by decide
  rw [h]
  norm_num [Binary64.toRat]

/-- C2 at concrete caches.  Threshold 6, cached pixel (10, 10, 10): the pixel
(12, 12, 12) has the computed magnitude 6 and is unchanged, (13, 12, 12) has 7
and is changed.  Threshold 3, cached black frame of five pixels: the frame with
channel sums 1, 11 and 3 has the computed magnitude `3 + 2 ^ (-51)` and is changed. -/
theorem hasFrameChanged_strict_threshold_witness :
    (hasFrameChangedDouble smallCacheState (pixelFrame 12 12 12) "monitoring").1 = false
    ∧ (hasFrameChangedDouble smallCacheState (pixelFrame 13 12 12) "monitoring").1 = true
    ∧ (hasFrameChangedDouble fivePixelState fivePixelFrame "monitoring").1 = true :=
  have hc : cachedFrame smallCacheState "monitoring" = pixelFrame 10 10 10 := by decide
  have ht : thresholdOf smallCacheState "monitoring" = 6 := by decide
  have hc5 : cachedFrame fivePixelState "monitoring" = ⟨1, 5, CV_8UC3, List.replicate 15 0⟩ := by
    decide
  have ht5 : thresholdOf fivePixelState "monitoring" = 3 := by decide
  ⟨((hasFrameChanged_strict_threshold smallCacheState (pixelFrame 12 12 12) "monitoring").2.1
      (by decide) (by decide) (by decide)).1
      (by rw [hc, ht, totalDiffDouble_pixel_12]; norm_num),
   ((hasFrameChanged_strict_threshold smallCacheState (pixelFrame 13 12 12) "monitoring").2.1
      (by decide) (by decide) (by decide)).2
      (by rw [hc, ht, totalDiffDouble_pixel_13]; norm_num),
   ((hasFrameChanged_strict_threshold fivePixelState fivePixelFrame "monitoring").2.1
      (by decide) (by decide) (by decide)).2
      (by rw [hc5, ht5, totalDiffDouble_fivePixel]; norm_num)⟩

/-- Rounding at the threshold: for the frame with channel sums 1, 11 and 3 over
five pixels the exact sum of the three means is 3, the threshold, while the sum
computed in `double` is `3 + 2 ^ (-51)`; the detector in `double` reports a
change where the one in exact arithmetic reports none. -/
theorem rounding_at_threshold :
    totalDiff fivePixelFrame (cachedFrame fivePixelState "monitoring") = 3
    ∧ (totalDiffDouble fivePixelFrame (cachedFrame fivePixelState "monitoring")).toRat
        = 3 + 1 / 2 ^ 51
    ∧ (hasFrameChanged fivePixelState fivePixelFrame "monitoring").1 = false
    ∧ (hasFrameChangedDouble fivePixelState fivePixelFrame "monitoring").1 = true := by
  have hc5 : cachedFrame fivePixelState "monitoring" = ⟨1, 5, CV_8UC3, List.replicate 15 0⟩ := by
    decide
  have ht5 : thresholdOf fivePixelState "monitoring" = 3 := by decide
  have hex : totalDiff fivePixelFrame ⟨1, 5, CV_8UC3, List.replicate 15 0⟩ = 3 := by
    norm_num [totalDiff, mean, absdiff, channelSum, Mat.elem, Mat.channels, fivePixelFrame,
      CV_8UC3, List.range, List.range.loop, List.replicate]
  have hh : fivePixelFrame.sizeOrTypeDiffers ⟨1, 5, CV_8UC3, List.replicate 15 0⟩ = false := by
    decide
  have hcon : QMap.contains fivePixelState.lastRawFrames "monitoring" = true := by decide
  have hne : (⟨1, 5, CV_8UC3, List.replicate 15 0⟩ : Mat).empty = false := by decide
  refine ⟨by rw [hc5, hex], by rw [hc5, totalDiffDouble_fivePixel], ?_, ?_⟩
  · rw [hasFrameChanged_fst, hc5, ht5, hex, hcon, hne, hh]
    norm_num
  · rw [hasFrameChangedDouble_fst, hc5, ht5, totalDiffDouble_fivePixel, hcon, hne, hh]
    norm_num

/-! ## Base64 -/

theorem base64Val_base64Char : ∀ v, v < 64 → base64Val (base64Char v) = v := by
  decide

theorem fromBase64_toBase64 : ∀ (bytes : List Nat), (∀ b ∈ bytes, b < 256) →
    fromBase64 (toBase64 bytes) = bytes
  | [], _ => rfl
  | [a], h => by
    have ha : a < 256 := h a (by simp)
    have h0 : a % 256 * 65536 / 262144 < 64 := by omega
    have h1 : a % 256 * 65536 / 4096 % 64 < 64 := by omega
    simp only [toBase64, fromBase64, base64Val_base64Char _ h0, base64Val_base64Char _ h1]
    congr 1
    omega
  | [a, b], h => by
    have ha : a < 256 := h a (by simp)
    have hb : b < 256 := h b (by simp)
    have h0 : (a % 256 * 65536 + b % 256 * 256) / 262144 < 64 := by omega
    have h1 : (a % 256 * 65536 + b % 256 * 256) / 4096 % 64 < 64 := by omega
    have h2 : (a % 256 * 65536 + b % 256 * 256) / 64 % 64 < 64 := by omega
    simp only [toBase64, fromBase64, base64Val_base64Char _ h0, base64Val_base64Char _ h1,
      base64Val_base64Char _ h2]
    congr 1
    · omega
    · congr 1
      omega
  | a :: b :: c :: rest, h => by
    have ha : a < 256 := h a (by simp)
    have hb : b < 256 := h b (by simp)
    have hc : c < 256 := h c (by simp)
    have hr : ∀ x ∈ rest, x < 256 := fun x hx => h x (by simp [hx])
    have h0 : (a % 256 * 65536 + b % 256 * 256 + c % 256) / 262144 < 64 := by omega
    have h1 : (a % 256 * 65536 + b % 256 * 256 + c % 256) / 4096 % 64 < 64 := by omega
    have h2 : (a % 256 * 65536 + b % 256 * 256 + c % 256) / 64 % 64 < 64 := by omega
    have h3 : (a % 256 * 65536 + b % 256 * 256 + c % 256) % 64 < 64 := by omega
    simp only [toBase64, fromBase64, base64Val_base64Char _ h0, base64Val_base64Char _ h1,
      base64Val_base64Char _ h2, base64Val_base64Char _ h3, fromBase64_toBase64 rest hr]
    congr 1
    · omega
    · congr 1
      · omega
      · congr 1
        omega

theorem base64Char_mem (v : Nat) (h : v < 64) : base64Char v ∈ base64Alphabet := by
  revert v
  decide

theorem toBase64_alphabet : ∀ (bytes : List Nat), ∀ ch ∈ toBase64 bytes, ch ∈ base64Alphabet
  | [], ch, h => by simp [toBase64] at h
  | [a], ch, h => by
    simp only [toBase64, List.mem_cons, List.mem_singleton, List.not_mem_nil, or_false] at h
    rcases h with h | h <;> subst h <;> apply base64Char_mem <;> omega
  | [a, b], ch, h => by
    simp only [toBase64, List.mem_cons, List.mem_singleton, List.not_mem_nil, or_false] at h
    rcases h with h | h | h <;> subst h <;> apply base64Char_mem <;> omega
  | a :: b :: c :: rest, ch, h => by
    simp only [toBase64, List.mem_cons] at h
    rcases h with h | h | h | h | h
    · subst h; apply base64Char_mem; omega
    · subst h; apply base64Char_mem; omega
    · subst h; apply base64Char_mem; omega
    · subst h; apply base64Char_mem; omega
    · exact toBase64_alphabet rest ch h

theorem toBase64_three_bytes : String.mk (toBase64 [1, 2, 3]) = "AQID" := by decide

theorem toBase64_two_bytes : String.mk (toBase64 [77, 97]) = "TWE" := by decide

/-! ## Fan-out to the viewers -/

theorem sentTo_fanout (p : Nat → Bool) (msg : String) (c0 : Nat) (l : List Nat) :
    sentTo ((l.filter p).map (fun c => Event.sent c msg)) c0
      = List.replicate (if p c0 = true then l.count c0 else 0) msg := by
  induction l with
  | nil => simp [sentTo]
  | cons a l ih =>
    unfold sentTo at ih ⊢
    by_cases hp : p a = true
    · by_cases hac : a = c0
      · subst hac
        simp only [hp, if_true] at ih
        simp [List.filter_cons, hp, List.filterMap_cons, ih, List.replicate_succ]
      · have hne : ¬ (a == c0) = true := by simpa using hac
        simp [List.filter_cons, hp, List.filterMap_cons, hac, ih, List.count_cons, hne]
    · have hp2 : p a = false := by simpa using hp
      by_cases hac : a = c0
      · subst hac
        simp only [hp2, Bool.false_eq_true, if_false] at ih
        simp [List.filter_cons, hp2, ih]
      · have hne : ¬ (a == c0) = true := by simpa using hac
        simp [List.filter_cons, hp2, ih, List.count_cons, hne]

/-! ## C4: `sendImage` -/

/-- C4: `sendImage` hands one text message to each viewer in connected state and
none to any other viewer; the text is the channel id, a colon and the unpadded
base64 text of the payload, which consists of alphabet characters and decodes
back to the payload bytes; the state, viewer list included, is unchanged. -/
theorem sendImage_delivery (sock : Nat → SocketState) (s : Backend) (channel : String)
    (payload : List Nat) (hbytes : ∀ b ∈ payload, b < 256) :
    (sendImage sock s channel payload).2
        = (s.clients.filter (fun c => sock c = SocketState.ConnectedState)).map
            (fun c => Event.sent c (channel ++ ":" ++ String.mk (toBase64 payload)))
    ∧ (∀ c, sentTo (sendImage sock s channel payload).2 c
        = List.replicate (if sock c = SocketState.ConnectedState then s.clients.count c else 0)
            (channel ++ ":" ++ String.mk (toBase64 payload)))
    ∧ (∀ ch ∈ toBase64 payload, ch ∈ base64Alphabet)
    ∧ fromBase64 (toBase64 payload) = payload
    ∧ (sendImage sock s channel payload).1 = s := by
  have hev : (sendImage sock s channel payload).2
        = (s.clients.filter (fun c => sock c = SocketState.ConnectedState)).map
            (fun c => Event.sent c (channel ++ ":" ++ String.mk (toBase64 payload))) := by
    unfold sendImage
    by_cases h : s.clients.isEmpty = true
    · have h2 : s.clients = [] := by simpa using h
      simp [h2]
    · simp [h]
  refine ⟨hev, ?_, toBase64_alphabet payload, fromBase64_toBase64 payload hbytes, ?_⟩
  · intro c
    rw [hev]
    have := sentTo_fanout (fun c => decide (sock c = SocketState.ConnectedState))
      (channel ++ ":" ++ String.mk (toBase64 payload)) c s.clients
    simpa using this
  · unfold sendImage
    split <;> rfl

/-- C4 on two viewers of which only viewer 1 is connected, payload `[1, 2, 3]`. -/
theorem sendImage_delivery_witness :
    (sendImage onlyFirstConnected twoViewerState "monitoring" [1, 2, 3]).2
        = [Event.sent 1 "monitoring:AQID"]
    ∧ sentTo (sendImage onlyFirstConnected twoViewerState "monitoring" [1, 2, 3]).2 2 = []
    ∧ fromBase64 (toBase64 [1, 2, 3]) = [1, 2, 3]
    ∧ (sendImage onlyFirstConnected twoViewerState "monitoring" [1, 2, 3]).1.clients = [1, 2] :=
  have h := sendImage_delivery onlyFirstConnected twoViewerState "monitoring" [1, 2, 3]
    (by decide)
  ⟨h.1.trans (by decide), (h.2.1 2).trans (by decide), h.2.2.2.1,
    (congrArg Backend.clients h.2.2.2.2).trans (by decide)⟩

/-! ## The encode-or-reuse step -/

theorem sendImage_fst (sock : Nat → SocketState) (s : Backend) (channel : String)
    (payload : List Nat) : (sendImage sock s channel payload).1 = s := by
  unfold sendImage
  split <;> rfl

theorem sendImage_snd (sock : Nat → SocketState) (s : Backend) (channel : String)
    (payload : List Nat) :
    (sendImage sock s channel payload).2
      = (s.clients.filter (fun c => sock c = SocketState.ConnectedState)).map
          (fun c => Event.sent c (channel ++ ":" ++ String.mk (toBase64 payload))) := by
  unfold sendImage
  by_cases h : s.clients.isEmpty = true
  · have h2 : s.clients = [] := by simpa using h
    simp [h2]
  · simp [h]

/-- Closed form of `encodeAndSendFrame`: the reads through `operator[]` leave the maps as they were. -/
theorem encodeAndSendFrame_eq (cv : Cv) (sock : Nat → SocketState) (s : Backend) (frame : Mat)
    (channel : String) :
    encodeAndSendFrame cv sock s frame channel =
      if frame.empty || s.clients.isEmpty then (s, [Event.encodeCall channel])
      else if !(hasFrameChanged s frame channel).1 && QMap.contains s.lastEncodedFrames channel then
        (s, Event.encodeCall channel ::
          (sendImage sock s channel (QMap.value s.lastEncodedFrames channel default)).2)
      else
        match cv.imencode ".jpg" frame (encodeParams channel) with
        | none => (s, [Event.encodeCall channel])
        | some buffer =>
          (cacheFrame s frame buffer channel, Event.encodeCall channel ::
            (sendImage sock (cacheFrame s frame buffer channel) channel buffer).2) := by
  unfold encodeAndSendFrame
  simp only [hasFrameChanged_snd, sendImage_fst]
  split
  · rfl
  · by_cases hc : QMap.contains s.lastEncodedFrames channel = true
    · have e1 := QMap.index_snd_of_contains s.lastEncodedFrames channel hc
      have e2 := QMap.index_fst s.lastEncodedFrames channel
      by_cases hch : (hasFrameChanged s frame channel).1 = true
      · simp [hc, hch]
      · have hch2 : (hasFrameChanged s frame channel).1 = false := by simpa using hch
        simp only [hc, hch2, Bool.not_false, Bool.and_self, if_true, e1, e2]
    · have hc2 : QMap.contains s.lastEncodedFrames channel = false := by simpa using hc
      simp [hc2]

/-! ## C9: no viewer, no effect -/

/-- C9: with an empty viewer set `processFrames` returns the state untouched and
an empty trace, `sendImage` likewise, and `encodeAndSendFrame` returns the state
untouched with nothing in its trace but its own entry marker (no message). -/
theorem no_viewer_no_effect (cv : Cv) (env : TickEnv) (sock : Nat → SocketState) (s : Backend)
    (frame : Mat) (channel : String) (payload : List Nat) (h : s.clients = []) :
    processFrames cv env s = (s, [])
    ∧ encodeAndSendFrame cv sock s frame channel = (s, [Event.encodeCall channel])
    ∧ (∀ c, sentTo (encodeAndSendFrame cv sock s frame channel).2 c = [])
    ∧ sendImage sock s channel payload = (s, []) := by
  have h2 : encodeAndSendFrame cv sock s frame channel = (s, [Event.encodeCall channel]) := by
    simp [encodeAndSendFrame, h]
  refine ⟨by simp [processFrames, h], h2, ?_, by simp [sendImage, h]⟩
  intro c
  rw [h2]
  rfl

/-! ## C8: a viewer connects -/

/-- C8: after `onNewConnection` the accepted viewer is in the viewer list (appended
at its end) and the timer is active; a stopped timer is started with the 5 ms
interval, a running timer gets no `start` call and nothing but the viewer list
changes; from Idle the result is the single viewer with the timer running. -/
theorem onNewConnection_active (s : Backend) (client : Nat) :
    client ∈ (onNewConnection s client).1.clients
    ∧ (onNewConnection s client).1.clients = s.clients ++ [client]
    ∧ (onNewConnection s client).1.timerActive = true
    ∧ (s.timerActive = false →
        onNewConnection s client
          = ({ s with clients := s.clients ++ [client], timerActive := true },
              [Event.timerStart 5]))
    ∧ (s.timerActive = true →
        onNewConnection s client = ({ s with clients := s.clients ++ [client] }, []))
    ∧ (s.clients = [] → s.timerActive = false →
        (onNewConnection s client).1.clients = [client]
        ∧ (onNewConnection s client).1.timerActive = true) := by
  unfold onNewConnection
  by_cases ht : s.timerActive = true
  · simp [ht]
  · have ht2 : s.timerActive = false := by simpa using ht
    simp [ht2, timerInterval]

/-- C8 from the idle state and from a state with a running timer. -/
theorem onNewConnection_active_witness :
    onNewConnection idleState 4
        = ({ idleState with clients := [4], timerActive := true }, [Event.timerStart 5])
    ∧ (onNewConnection smallCacheState 4).2 = [] :=
  ⟨(onNewConnection_active idleState 4).2.2.2.1 (by decide),
    congrArg Prod.snd ((onNewConnection_active smallCacheState 4).2.2.2.2.1 (by decide))⟩

/-- C9 at the idle state. -/
theorem no_viewer_no_effect_witness :
    processFrames plainCv (tickAt 100 0) idleState = (idleState, [])
    ∧ encodeAndSendFrame plainCv onlyFirstConnected idleState (pixelFrame 1 2 3) "monitoring"
        = (idleState, [Event.encodeCall "monitoring"])
    ∧ sendImage onlyFirstConnected idleState "monitoring" [1, 2, 3] = (idleState, []) :=
  have h := no_viewer_no_effect plainCv (tickAt 100 0) onlyFirstConnected idleState
    (pixelFrame 1 2 3) "monitoring" [1, 2, 3] (by decide)
  ⟨h.1, h.2.1, h.2.2.2⟩

/-! ## C3: malformed viewer messages -/

theorem indexOf_eq_neg_one (message : String) (h : ':' ∉ message.data) :
    indexOf message ':' = -1 := by
  unfold indexOf
  have := (List.indexOf_eq_length (a := ':') (l := message.data)).2 h
  simp [this]

theorem indexOf_ne_neg_one (message : String) (h : ':' ∈ message.data) :
    indexOf message ':' ≠ -1 := by
  unfold indexOf
  have hlt : List.indexOf ':' message.data < message.data.length := List.indexOf_lt_length.2 h
  simp only [hlt, if_true]
  omega

theorem split_AllFormData (rest : String) :
    indexOf ("AllFormData:" ++ rest) ':' = 11
    ∧ left ("AllFormData:" ++ rest) 11 = "AllFormData"
    ∧ mid ("AllFormData:" ++ rest) (11 + 1) = rest := by
  have hd : ("AllFormData:" ++ rest).data
      = 'A' :: 'l' :: 'l' :: 'F' :: 'o' :: 'r' :: 'm' :: 'D' :: 'a' :: 't' :: 'a' :: ':'
          :: rest.data := by
    rw [String.data_append]
    rfl
  refine ⟨?_, ?_, ?_⟩
  · unfold indexOf
    rw [hd]
    simp [List.indexOf_cons]
  · unfold left
    rw [hd]
    rfl
  · unfold mid
    rw [hd]
    rfl

/-- C3: a message without a colon is answered with exactly
"response:Error: Invalid message format", and a message whose text before the
first colon is "AllFormData" and whose text after it is not read as a JSON object
(in particular any "AllFormData:" followed by such a text) with exactly
"response:Error: Invalid JSON"; the reply goes to every viewer in connected state
and the state, viewer list included, is unchanged. -/
theorem onTextMessageReceived_errors (fromJson : String → QJsonDocument)
    (sock : Nat → SocketState) (s : Backend) (message rest : String) :
    (':' ∉ message.data →
      onTextMessageReceived fromJson sock s message
        = (s, (s.clients.filter (fun c => sock c = SocketState.ConnectedState)).map
            (fun c => Event.sent c "response:Error: Invalid message format")))
    ∧ (':' ∈ message.data → left message (indexOf message ':') = "AllFormData" →
        (fromJson (mid message (indexOf message ':' + 1))).isObject = false →
      onTextMessageReceived fromJson sock s message
        = (s, (s.clients.filter (fun c => sock c = SocketState.ConnectedState)).map
            (fun c => Event.sent c "response:Error: Invalid JSON")))
    ∧ ((fromJson rest).isObject = false →
      onTextMessageReceived fromJson sock s ("AllFormData:" ++ rest)
        = (s, (s.clients.filter (fun c => sock c = SocketState.ConnectedState)).map
            (fun c => Event.sent c "response:Error: Invalid JSON"))) := by
  refine ⟨?_, ?_, ?_⟩
  · intro h
    unfold onTextMessageReceived
    simp only [indexOf_eq_neg_one message h, if_true, sendResponse]
    rfl
  · intro h hl hj
    unfold onTextMessageReceived
    simp only [indexOf_ne_neg_one message h, if_false, hl, if_true, hj, Bool.false_eq_true,
      sendResponse]
    rfl
  · intro hj
    obtain ⟨h1, h2, h3⟩ := split_AllFormData rest
    unfold onTextMessageReceived
    rw [h1]
    simp only [h2, h3, hj]
    simp only [sendResponse]
    rfl

/-- C3 on the messages "hello" and "AllFormData:{not valid json}" with viewer 1 connected. -/
theorem onTextMessageReceived_errors_witness :
    onTextMessageReceived toyJson onlyFirstConnected twoViewerState "hello"
        = (twoViewerState, [Event.sent 1 "response:Error: Invalid message format"])
    ∧ onTextMessageReceived toyJson onlyFirstConnected twoViewerState
          "AllFormData:\x7bnot valid json\x7d"
        = (twoViewerState, [Event.sent 1 "response:Error: Invalid JSON"]) :=
  have h := onTextMessageReceived_errors toyJson onlyFirstConnected twoViewerState
  ⟨((h "hello" "").1 (by decide)).trans (by decide),
    ((h "AllFormData:\x7bnot valid json\x7d" "").2.1 (by decide) (by decide) (by decide)).trans
      (by decide)⟩

/-! ## C7: a viewer disconnects -/

theorem sendResponse_no_viewer (sock : Nat → SocketState) (s : Backend) (response : String)
    (h : s.clients = []) : sendResponse sock s response = (s, []) := by
  simp [sendResponse, h]

theorem onTextMessageReceived_no_viewer (fromJson : String → QJsonDocument)
    (sock : Nat → SocketState) (s : Backend) (message : String) (h : s.clients = []) :
    onTextMessageReceived fromJson sock s message = (s, []) := by
  unfold onTextMessageReceived
  simp only [sendResponse_no_viewer _ _ _ h]
  split
  · rfl
  · split
    · split <;> rfl
    · rfl

theorem step_idle (cv : Cv) (fromJson : String → QJsonDocument) (s : Backend) (i : Input)
    (hc : s.clients = []) (ht : s.timerActive = false) (hi : i.isConnect = false) :
    (step cv fromJson s i).1 = s ∧ ∀ e ∈ (step cv fromJson s i).2, e = Event.timerStop := by
  cases i with
  | connect c => simp [Input.isConnect] at hi
  | disconnect sender =>
    cases sender with
    | none => simp [step, onClientDisconnected]
    | some c =>
      cases s
      simp only at hc ht
      subst hc ht
      simp [step, onClientDisconnected, removeAll]
  | message sock text => simp [step, onTextMessageReceived_no_viewer _ _ _ _ hc]
  | timeout env => simp [step, ht]

theorem removeAll_eq_filter (l : List Nat) (client : Nat) :
    removeAll l client = l.filter (fun c => c ≠ client) := by
  unfold removeAll
  congr 1
  funext x
  by_cases h : x = client <;> simp [h]

/-- While idle (no viewer, timer stopped) and no connection arrives, the event loop
neither changes the state nor produces anything but redundant `stop` calls. -/
theorem run_idle (cv : Cv) (fromJson : String → QJsonDocument) (s : Backend)
    (hc : s.clients = []) (ht : s.timerActive = false) :
    ∀ inputs : List Input, (∀ i ∈ inputs, i.isConnect = false) →
      (run cv fromJson s inputs).1 = s
      ∧ ∀ e ∈ (run cv fromJson s inputs).2, e = Event.timerStop
  | [], _ => by simp [run]
  | i :: rest, h => by
    have hs := step_idle cv fromJson s i hc ht (h i (by simp))
    have hr := run_idle cv fromJson s hc ht rest (fun j hj => h j (by simp [hj]))
    simp only [run, hs.1]
    refine ⟨hr.1, ?_⟩
    intro e he
    rcases List.mem_append.1 he with h1 | h2
    · exact hs.2 e h1
    · exact hr.2 e h2

/-- C7: `onClientDisconnected` for a viewer removes that viewer from the list and
keeps the others in order; if the list is empty afterwards the timer is stopped
(one `stop` call) and, as long as no `onNewConnection` runs, any sequence of
disconnect, message and timer inputs leaves the state as it is and produces no
message and no frame attempt; if the list is not empty the timer is left alone. -/
theorem onClientDisconnected_idle (cv : Cv) (fromJson : String → QJsonDocument) (s : Backend)
    (client : Nat) :
    (onClientDisconnected s (some client)).1.clients = s.clients.filter (fun c => c ≠ client)
    ∧ ((onClientDisconnected s (some client)).1.clients = [] →
        (onClientDisconnected s (some client)).1.timerActive = false
        ∧ (onClientDisconnected s (some client)).2 = [Event.timerStop]
        ∧ ∀ inputs : List Input, (∀ i ∈ inputs, i.isConnect = false) →
            (run cv fromJson (onClientDisconnected s (some client)).1 inputs).1
                = (onClientDisconnected s (some client)).1
            ∧ ∀ e ∈ (run cv fromJson (onClientDisconnected s (some client)).1 inputs).2,
                e = Event.timerStop)
    ∧ ((onClientDisconnected s (some client)).1.clients ≠ [] →
        (onClientDisconnected s (some client)).1.timerActive = s.timerActive
        ∧ (onClientDisconnected s (some client)).2 = []) := by
  have hcl : (onClientDisconnected s (some client)).1.clients
      = s.clients.filter (fun c => c ≠ client) := by
    have hrm := removeAll_eq_filter s.clients client
    unfold onClientDisconnected
    dsimp only
    split <;> exact hrm
  refine ⟨hcl, ?_, ?_⟩
  · intro he
    have hf : s.clients.filter (fun c => c ≠ client) = [] := hcl ▸ he
    have hrem : removeAll s.clients client = [] := by
      rw [removeAll_eq_filter]
      exact hf
    have ht : (onClientDisconnected s (some client)).1.timerActive = false := by
      simp [onClientDisconnected, hrem]
    refine ⟨ht, by simp [onClientDisconnected, hrem], ?_⟩
    intro inputs hin
    exact run_idle cv fromJson _ he ht inputs hin
  · intro hne
    have hf : s.clients.filter (fun c => c ≠ client) ≠ [] := hcl ▸ hne
    have hrem : removeAll s.clients client ≠ [] := by
      rw [removeAll_eq_filter]
      exact hf
    simp [onClientDisconnected, hrem]

/-- C7 when the only viewer of `smallCacheState` leaves, followed by two timer
inputs and a message, and when one of the two viewers of `twoViewerState` leaves. -/
theorem onClientDisconnected_idle_witness :
    onClientDisconnected smallCacheState (some 1) = (idleState, [Event.timerStop])
    ∧ (run plainCv toyJson (onClientDisconnected smallCacheState (some 1)).1
        [Input.timeout (tickAt 100 0), Input.message onlyFirstConnected "hello",
          Input.timeout (tickAt 200 0)]).1 = idleState
    ∧ (onClientDisconnected twoViewerState (some 2)).1.clients = [1]
    ∧ (onClientDisconnected twoViewerState (some 2)).2 = [] :=
  have h := onClientDisconnected_idle plainCv toyJson smallCacheState 1
  have h2 := onClientDisconnected_idle plainCv toyJson twoViewerState 2
  have e : onClientDisconnected smallCacheState (some 1) = (idleState, [Event.timerStop]) := by
    decide
  ⟨e, (((h.2.1 (by decide)).2.2 _ (by decide)).1).trans (congrArg Prod.fst e),
    h2.1.trans (by decide), (h2.2.2 (by decide)).2⟩

/-! ## C6: the codec rejects a frame -/

/-- C6: when `encodeAndSendFrame` reaches the codec (frame and viewer list not
empty, and the frame changed or no payload is cached for the channel) and
`imencode` rejects the frame, the state is returned as it was, so every channel
keeps its cached raw frame and payload, and the trace holds the entry marker only
(no message); a later call on that state with a frame reported unchanged re-sends
the payload that was cached before. -/
theorem encodeAndSendFrame_rejected (cv : Cv) (sock : Nat → SocketState) (s : Backend)
    (frame : Mat) (channel : String)
    (hframe : frame.empty = false) (hviewers : s.clients ≠ [])
    (hreach : (hasFrameChanged s frame channel).1 = true
      ∨ QMap.contains s.lastEncodedFrames channel = false)
    (hreject : cv.imencode ".jpg" frame (encodeParams channel) = none) :
    encodeAndSendFrame cv sock s frame channel = (s, [Event.encodeCall channel])
    ∧ (∀ c, sentTo (encodeAndSendFrame cv sock s frame channel).2 c = [])
    ∧ (∀ ch, QMap.value (encodeAndSendFrame cv sock s frame channel).1.lastRawFrames ch default
          = QMap.value s.lastRawFrames ch default
        ∧ QMap.contains (encodeAndSendFrame cv sock s frame channel).1.lastEncodedFrames ch
          = QMap.contains s.lastEncodedFrames ch
        ∧ QMap.value (encodeAndSendFrame cv sock s frame channel).1.lastEncodedFrames ch default
          = QMap.value s.lastEncodedFrames ch default)
    ∧ (∀ later : Mat, later.empty = false →
        (hasFrameChanged s later channel).1 = false →
        QMap.contains s.lastEncodedFrames channel = true →
        (encodeAndSendFrame cv sock (encodeAndSendFrame cv sock s frame channel).1 later channel).2
          = Event.encodeCall channel ::
              (sendImage sock s channel (QMap.value s.lastEncodedFrames channel default)).2) := by
  have hcl : s.clients.isEmpty = false := by
    cases hs : s.clients with
    | nil => exact absurd hs hviewers
    | cons a l => rfl
  have hmain : encodeAndSendFrame cv sock s frame channel = (s, [Event.encodeCall channel]) := by
    rw [encodeAndSendFrame_eq]
    simp only [hframe, hcl, Bool.or_self, Bool.false_eq_true, if_false, hreject]
    rcases hreach with h | h
    · simp [h]
    · simp [h]
  refine ⟨hmain, ?_, ?_, ?_⟩
  · intro c
    rw [hmain]
    rfl
  · intro ch
    rw [hmain]
    exact ⟨rfl, rfl, rfl⟩
  · intro later hl hu hc
    rw [hmain, encodeAndSendFrame_eq]
    simp [hl, hcl, hu, hc]

/-- C6 on `smallCacheState`: a changed frame with a truncated buffer is rejected
by the codec of `plainCv`; afterwards an unchanged frame re-sends the payload `[7, 7]`. -/
theorem encodeAndSendFrame_rejected_witness :
    encodeAndSendFrame plainCv onlyFirstConnected smallCacheState truncatedFrame "monitoring"
        = (smallCacheState, [Event.encodeCall "monitoring"])
    ∧ (encodeAndSendFrame plainCv onlyFirstConnected
          (encodeAndSendFrame plainCv onlyFirstConnected smallCacheState truncatedFrame
            "monitoring").1 (pixelFrame 10 10 10) "monitoring").2
        = [Event.encodeCall "monitoring", Event.sent 1 "monitoring:Bwc"] :=
  have h := encodeAndSendFrame_rejected plainCv onlyFirstConnected smallCacheState truncatedFrame
    "monitoring" (by decide)
    (by decide)
    (Or.inl (by
      rw [hasFrameChanged_fst]
      norm_num [totalDiff, mean, absdiff, channelSum, Mat.elem, Mat.channels, cachedFrame,
        thresholdOf, smallCacheState, truncatedFrame, pixelFrame, QMap.value, QMap.contains,
        CV_8UC3, List.range, List.range.loop, Mat.empty, Mat.sizeOrTypeDiffers, Backend.init]))
    (by decide)
  ⟨h.1, (h.2.2.2 (pixelFrame 10 10 10) (by decide)
    (by
      rw [hasFrameChanged_fst]
      norm_num [totalDiff, mean, absdiff, channelSum, Mat.elem, Mat.channels, cachedFrame,
        thresholdOf, smallCacheState, pixelFrame, QMap.value, QMap.contains,
        CV_8UC3, List.range, List.range.loop, Mat.empty, Mat.sizeOrTypeDiffers, Backend.init])
    (by decide)).trans (by decide)⟩

/-! ## What each part of a tick touches -/

theorem QMap.index_fst_int (m : QMap Int) (k : String) :
    (QMap.index m k).1 = QMap.value m k 0 := QMap.index_fst m k

theorem QMap.value_index_snd_int (m : QMap Int) (k k2 : String) :
    QMap.value (QMap.index m k).2 k2 0 = QMap.value m k2 0 := QMap.value_index_snd m k k2

theorem QMap.index_fst_bool (m : QMap Bool) (k : String) :
    (QMap.index m k).1 = QMap.value m k false := QMap.index_fst m k

theorem QMap.value_index_snd_bool (m : QMap Bool) (k k2 : String) :
    QMap.value (QMap.index m k).2 k2 false = QMap.value m k2 false :=
  QMap.value_index_snd m k k2

theorem attempts_of_sent (l : List Event) (channel : String)
    (h : ∀ e ∈ l, e.isSent = true) : attempts l channel = 0 := by
  unfold attempts
  rw [List.count_eq_zero]
  intro hm
  have := h _ hm
  simp [Event.isSent] at this

theorem sendImage_isSent (sock : Nat → SocketState) (s : Backend) (channel : String)
    (payload : List Nat) : ∀ e ∈ (sendImage sock s channel payload).2, e.isSent = true := by
  intro e he
  rw [sendImage_snd] at he
  obtain ⟨c, _, rfl⟩ := List.mem_map.1 he
  rfl

/-- The trace of `encodeAndSendFrame` is its entry marker followed by messages only. -/
theorem encodeAndSendFrame_trace (cv : Cv) (sock : Nat → SocketState) (s : Backend) (frame : Mat)
    (channel : String) :
    ∃ msgs : List Event, (encodeAndSendFrame cv sock s frame channel).2
        = Event.encodeCall channel :: msgs ∧ ∀ e ∈ msgs, e.isSent = true := by
  rw [encodeAndSendFrame_eq]
  split
  · exact ⟨[], rfl, by simp⟩
  · split
    · exact ⟨_, rfl, sendImage_isSent _ _ _ _⟩
    · split
      · exact ⟨[], rfl, by simp⟩
      · exact ⟨_, rfl, sendImage_isSent _ _ _ _⟩

theorem encodeAndSendFrame_attempts (cv : Cv) (sock : Nat → SocketState) (s : Backend)
    (frame : Mat) (channel ch : String) :
    attempts (encodeAndSendFrame cv sock s frame channel).2 ch = if channel = ch then 1 else 0 := by
  obtain ⟨msgs, h1, h2⟩ := encodeAndSendFrame_trace cv sock s frame channel
  have h0 := attempts_of_sent msgs ch h2
  unfold attempts at h0 ⊢
  rw [h1, List.count_cons, h0]
  by_cases h : channel = ch <;> simp [h]

/-- The fields `encodeAndSendFrame` leaves alone: all but the two caches. -/
theorem encodeAndSendFrame_frame (cv : Cv) (sock : Nat → SocketState) (s : Backend) (frame : Mat)
    (channel : String) :
    (encodeAndSendFrame cv sock s frame channel).1.clients = s.clients
    ∧ (encodeAndSendFrame cv sock s frame channel).1.timerActive = s.timerActive
    ∧ (encodeAndSendFrame cv sock s frame channel).1.cameras = s.cameras
    ∧ (encodeAndSendFrame cv sock s frame channel).1.frameCounter = s.frameCounter
    ∧ (encodeAndSendFrame cv sock s frame channel).1.cameraIntervals = s.cameraIntervals
    ∧ (encodeAndSendFrame cv sock s frame channel).1.cameraFailed = s.cameraFailed
    ∧ (encodeAndSendFrame cv sock s frame channel).1.lastFrameTime = s.lastFrameTime
    ∧ (encodeAndSendFrame cv sock s frame channel).1.frameChangeThreshold
        = s.frameChangeThreshold := by
  rw [encodeAndSendFrame_eq]
  split
  · simp
  · split
    · simp
    · split <;> simp [cacheFrame]

theorem checkCameraConnections_frame (reopen : Bool) (s : Backend) :
    (checkCameraConnections reopen s).clients = s.clients
    ∧ (checkCameraConnections reopen s).timerActive = s.timerActive
    ∧ (checkCameraConnections reopen s).frameCounter = s.frameCounter
    ∧ (checkCameraConnections reopen s).cameraIntervals = s.cameraIntervals
    ∧ (checkCameraConnections reopen s).lastFrameTime = s.lastFrameTime
    ∧ (checkCameraConnections reopen s).lastRawFrames = s.lastRawFrames
    ∧ (checkCameraConnections reopen s).lastEncodedFrames = s.lastEncodedFrames
    ∧ (checkCameraConnections reopen s).frameChangeThreshold = s.frameChangeThreshold := by
  unfold checkCameraConnections
  split
  · split <;> simp
  · simp

theorem processFramesPrologue_frame (env : TickEnv) (s : Backend) :
    (processFramesPrologue env s).clients = s.clients
    ∧ (processFramesPrologue env s).timerActive = s.timerActive
    ∧ (processFramesPrologue env s).frameCounter = s.frameCounter + 1
    ∧ (processFramesPrologue env s).cameraIntervals = s.cameraIntervals
    ∧ (processFramesPrologue env s).lastFrameTime = s.lastFrameTime
    ∧ (processFramesPrologue env s).lastRawFrames = s.lastRawFrames
    ∧ (processFramesPrologue env s).lastEncodedFrames = s.lastEncodedFrames
    ∧ (processFramesPrologue env s).frameChangeThreshold = s.frameChangeThreshold := by
  unfold processFramesPrologue
  dsimp only
  split
  · obtain ⟨h1, h2, h3, h4, h5, h6, h7, h8⟩ := checkCameraConnections_frame env.reopen
      { s with frameCounter := s.frameCounter + 1,
               connectionCheckCounter := s.connectionCheckCounter + timerInterval }
    simp [h1, h2, h3, h4, h5, h6, h7, h8]
  · simp

theorem grabMonitoring_congr (s t : Backend) (h : s.cameras = t.cameras) :
    grabMonitoring s = grabMonitoring t := by
  unfold grabMonitoring getCameraByChannel
  rw [h]

theorem processFramesMonitoring_facts (cv : Cv) (env : TickEnv) (s : Backend) :
    attempts (processFramesMonitoring cv env s).2.2 "monitoring"
        = (if isDue s env.now "monitoring" then 1 else 0)
    ∧ attempts (processFramesMonitoring cv env s).2.2 "basler" = 0
    ∧ QMap.value (processFramesMonitoring cv env s).1.lastFrameTime "monitoring" 0
        = (if isDue s env.now "monitoring" then env.now
            else QMap.value s.lastFrameTime "monitoring" 0)
    ∧ (∀ k, k ≠ "monitoring" →
        QMap.value (processFramesMonitoring cv env s).1.lastFrameTime k 0
          = QMap.value s.lastFrameTime k 0)
    ∧ (∀ k, QMap.value (processFramesMonitoring cv env s).1.cameraIntervals k 0
          = QMap.value s.cameraIntervals k 0)
    ∧ (isDue s env.now "monitoring" →
        QMap.value (processFramesMonitoring cv env s).1.cameraFailed "monitoring" false
          = (grabMonitoring s).isNone)
    ∧ (processFramesMonitoring cv env s).1.clients = s.clients
    ∧ (processFramesMonitoring cv env s).1.frameCounter = s.frameCounter
    ∧ (processFramesMonitoring cv env s).1.timerActive = s.timerActive := by
  unfold processFramesMonitoring isDue
  dsimp only
  rw [QMap.index_fst_int, QMap.index_fst_int]
  by_cases hdue : env.now - QMap.value s.lastFrameTime "monitoring" 0
      ≥ QMap.value s.cameraIntervals "monitoring" 0
  · simp only [hdue, if_true]
    have hg : grabMonitoring
        { s with lastFrameTime := (QMap.index s.lastFrameTime "monitoring").2,
                 cameraIntervals := (QMap.index s.cameraIntervals "monitoring").2 }
        = grabMonitoring s := grabMonitoring_congr _ _ rfl
    rw [hg]
    cases hgrab : grabMonitoring s with
    | none =>
      obtain ⟨f1, f2, f3, f4, f5, f6, f7, f8⟩ := encodeAndSendFrame_frame cv env.sock
        { s with lastFrameTime := (QMap.index s.lastFrameTime "monitoring").2,
                 cameraIntervals := (QMap.index s.cameraIntervals "monitoring").2 }
        (createFakeFrame cv "monitoring" s.frameCounter env.wallSeconds env.noise) "monitoring"
      simp only [encodeAndSendFrame_attempts, f1, f2, f4, f5, f6, f7, QMap.value_assign,
        QMap.value_index_snd_int, if_true, Option.isNone_none]
      refine ⟨trivial, by decide, trivial, ?_, fun k => trivial, fun _ => trivial, trivial,
        trivial, trivial⟩
      intro k hk
      simp [Ne.symm hk]
    | some frame =>
      obtain ⟨f1, f2, f3, f4, f5, f6, f7, f8⟩ := encodeAndSendFrame_frame cv env.sock
        { s with lastFrameTime := (QMap.index s.lastFrameTime "monitoring").2,
                 cameraIntervals := (QMap.index s.cameraIntervals "monitoring").2 }
        ⟨240, 320, frame.type, cv.resize frame 320 240⟩ "monitoring"
      simp only [encodeAndSendFrame_attempts, f1, f2, f4, f5, f6, f7, QMap.value_assign,
        QMap.value_index_snd_int, if_true, Option.isNone_some]
      refine ⟨trivial, by decide, trivial, ?_, fun k => trivial, fun _ => trivial, trivial,
        trivial, trivial⟩
      intro k hk
      simp [Ne.symm hk]
  · simp only [hdue, if_false, QMap.value_index_snd_int]
    refine ⟨rfl, rfl, trivial, fun k _ => trivial, fun k => trivial, fun h => h.elim,
      trivial, trivial, trivial⟩

theorem processFramesBasler_facts (cv : Cv) (env : TickEnv) (s : Backend) :
    attempts (processFramesBasler cv env s).2.2 "basler"
        = (if isDue s env.now "basler" then 1 else 0)
    ∧ attempts (processFramesBasler cv env s).2.2 "monitoring" = 0
    ∧ QMap.value (processFramesBasler cv env s).1.lastFrameTime "basler" 0
        = (if isDue s env.now "basler" then env.now else QMap.value s.lastFrameTime "basler" 0)
    ∧ (∀ k, k ≠ "basler" →
        QMap.value (processFramesBasler cv env s).1.lastFrameTime k 0
          = QMap.value s.lastFrameTime k 0)
    ∧ (∀ k, k ≠ "basler" →
        QMap.value (processFramesBasler cv env s).1.cameraFailed k false
          = QMap.value s.cameraFailed k false)
    ∧ (processFramesBasler cv env s).1.clients = s.clients
    ∧ (processFramesBasler cv env s).1.timerActive = s.timerActive
    ∧ (processFramesBasler cv env s).2.1 = true := by
  unfold processFramesBasler isDue
  dsimp only
  rw [QMap.index_fst_int, QMap.index_fst_int]
  by_cases hdue : env.now - QMap.value s.lastFrameTime "basler" 0
      ≥ QMap.value s.cameraIntervals "basler" 0
  · simp only [hdue, if_true]
    obtain ⟨f1, f2, f3, f4, f5, f6, f7, f8⟩ := encodeAndSendFrame_frame cv env.sock
      { s with lastFrameTime := (QMap.index s.lastFrameTime "basler").2,
               cameraIntervals := (QMap.index s.cameraIntervals "basler").2 }
      (createFakeFrame cv "basler" s.frameCounter env.wallSeconds env.noise) "basler"
    simp only [encodeAndSendFrame_attempts, f1, f2, f4, f5, f6, f7, QMap.value_assign,
      QMap.value_index_snd_int, if_true]
    refine ⟨trivial, by decide, trivial, ?_, ?_, trivial, trivial, trivial⟩
    · intro k hk
      simp [Ne.symm hk]
    · intro k hk
      simp [Ne.symm hk]
  · simp only [hdue, if_false, QMap.value_index_snd_int]
    refine ⟨rfl, rfl, trivial, fun k _ => trivial, fun k _ => trivial, trivial, trivial, trivial⟩

theorem cleanupDisconnectedClients_frame (sock : Nat → SocketState) (s : Backend) :
    (cleanupDisconnectedClients sock s).lastFrameTime = s.lastFrameTime
    ∧ (cleanupDisconnectedClients sock s).cameraFailed = s.cameraFailed
    ∧ (cleanupDisconnectedClients sock s).timerActive = s.timerActive
    ∧ (cleanupDisconnectedClients sock s).lastRawFrames = s.lastRawFrames
    ∧ (cleanupDisconnectedClients sock s).lastEncodedFrames = s.lastEncodedFrames := by
  unfold cleanupDisconnectedClients
  dsimp only
  split <;> simp

theorem processFramesEpilogue_facts (env : TickEnv) (s : Backend) (anyActive : Bool) :
    (processFramesEpilogue env s anyActive).1.lastFrameTime = s.lastFrameTime
    ∧ (processFramesEpilogue env s anyActive).1.cameraFailed = s.cameraFailed
    ∧ (processFramesEpilogue env s anyActive).1.lastRawFrames = s.lastRawFrames
    ∧ (processFramesEpilogue env s anyActive).1.lastEncodedFrames = s.lastEncodedFrames
    ∧ (processFramesEpilogue env s anyActive).2 = (if anyActive then [] else [Event.timerStop])
    ∧ (anyActive = true → (processFramesEpilogue env s anyActive).1.timerActive = s.timerActive) := by
  unfold processFramesEpilogue
  dsimp only
  cases anyActive <;>
    (simp only [Bool.not_false, Bool.not_true, if_true, Bool.false_eq_true, if_false]
     split <;> split <;> simp [cleanupDisconnectedClients_frame])

/-- The result of a tick with at least one viewer, as the composition of its parts. -/
theorem processFrames_eq (cv : Cv) (env : TickEnv) (s : Backend) (hv : s.clients ≠ []) :
    processFrames cv env s =
      ((processFramesEpilogue env
          (processFramesBasler cv env
            (processFramesMonitoring cv env (processFramesPrologue env s)).1).1
          ((processFramesMonitoring cv env (processFramesPrologue env s)).2.1
            || (processFramesBasler cv env
                (processFramesMonitoring cv env (processFramesPrologue env s)).1).2.1)).1,
        (processFramesMonitoring cv env (processFramesPrologue env s)).2.2
          ++ (processFramesBasler cv env
                (processFramesMonitoring cv env (processFramesPrologue env s)).1).2.2
          ++ (processFramesEpilogue env
                (processFramesBasler cv env
                  (processFramesMonitoring cv env (processFramesPrologue env s)).1).1
                ((processFramesMonitoring cv env (processFramesPrologue env s)).2.1
                  || (processFramesBasler cv env
                      (processFramesMonitoring cv env (processFramesPrologue env s)).1).2.1)).2) := by
  have hcl : s.clients.isEmpty = false := by
    cases hs : s.clients with
    | nil => exact absurd hs hv
    | cons a l => rfl
  simp [processFrames, hcl]

theorem attempts_append (a b : List Event) (ch : String) :
    attempts (a ++ b) ch = attempts a ch + attempts b ch := by
  simp [attempts, List.count_append]

theorem attempts_epilogue (env : TickEnv) (s : Backend) (anyActive : Bool) (ch : String) :
    attempts (processFramesEpilogue env s anyActive).2 ch = 0 := by
  rw [(processFramesEpilogue_facts env s anyActive).2.2.2.2.1]
  cases anyActive <;> simp [attempts]

/-! ## C5: per-channel cadence -/

/-- C5: in a tick with at least one viewer, a channel that is due
(`now - lastFrameTime >= interval`) gets exactly one entry into
`encodeAndSendFrame` and its `lastFrameTime` becomes `now`, and for "monitoring"
the failed flag becomes false when the source delivered a frame and true when
the synthetic frame was used; a channel that is not due gets no entry and keeps
its `lastFrameTime`. -/
theorem processFrames_cadence (cv : Cv) (env : TickEnv) (s : Backend) (hv : s.clients ≠ []) :
    (isDue s env.now "monitoring" →
        attempts (processFrames cv env s).2 "monitoring" = 1
        ∧ QMap.value (processFrames cv env s).1.lastFrameTime "monitoring" 0 = env.now
        ∧ QMap.value (processFrames cv env s).1.cameraFailed "monitoring" false
            = (grabMonitoring (processFramesPrologue env s)).isNone)
    ∧ (¬ isDue s env.now "monitoring" →
        attempts (processFrames cv env s).2 "monitoring" = 0
        ∧ QMap.value (processFrames cv env s).1.lastFrameTime "monitoring" 0
            = QMap.value s.lastFrameTime "monitoring" 0)
    ∧ (isDue s env.now "basler" →
        attempts (processFrames cv env s).2 "basler" = 1
        ∧ QMap.value (processFrames cv env s).1.lastFrameTime "basler" 0 = env.now)
    ∧ (¬ isDue s env.now "basler" →
        attempts (processFrames cv env s).2 "basler" = 0
        ∧ QMap.value (processFrames cv env s).1.lastFrameTime "basler" 0
            = QMap.value s.lastFrameTime "basler" 0) := by
  rw [processFrames_eq cv env s hv]
  obtain ⟨p1, p2, p3, p4, p5, p6, p7, p8⟩ := processFramesPrologue_frame env s
  obtain ⟨m1, m2, m3, m4, m5, m6, m7, m8, m9⟩ :=
    processFramesMonitoring_facts cv env (processFramesPrologue env s)
  obtain ⟨b1, b2, b3, b4, b5, b6, b7, b8⟩ :=
    processFramesBasler_facts cv env
      (processFramesMonitoring cv env (processFramesPrologue env s)).1
  obtain ⟨e1, e2, e3, e4, e5, e6⟩ := processFramesEpilogue_facts env
    (processFramesBasler cv env (processFramesMonitoring cv env (processFramesPrologue env s)).1).1
    ((processFramesMonitoring cv env (processFramesPrologue env s)).2.1
      || (processFramesBasler cv env
          (processFramesMonitoring cv env (processFramesPrologue env s)).1).2.1)
  have hm : isDue (processFramesPrologue env s) env.now "monitoring"
      ↔ isDue s env.now "monitoring" := by
    unfold isDue
    rw [p4, p5]
  have hb : isDue (processFramesMonitoring cv env (processFramesPrologue env s)).1 env.now "basler"
      ↔ isDue s env.now "basler" := by
    unfold isDue
    rw [m4 "basler" (by decide), m5 "basler", p4, p5]
  simp only [attempts_append, attempts_epilogue, e1, e2, Nat.add_zero]
  refine ⟨?_, ?_, ?_, ?_⟩
  · intro h
    have h1 := hm.2 h
    rw [m1, b2, b4 "monitoring" (by decide), m3, b5 "monitoring" (by decide), m6 h1,
      if_pos h1, if_pos h1]
    exact ⟨rfl, rfl, rfl⟩
  · intro h
    have h1 : ¬ isDue (processFramesPrologue env s) env.now "monitoring" := fun x => h (hm.1 x)
    rw [m1, b2, b4 "monitoring" (by decide), m3, if_neg h1, if_neg h1, p5]
    exact ⟨rfl, rfl⟩
  · intro h
    have h1 := hb.2 h
    rw [m2, b1, b3, if_pos h1, if_pos h1]
    exact ⟨rfl, rfl⟩
  · intro h
    have h1 : ¬ isDue (processFramesMonitoring cv env (processFramesPrologue env s)).1 env.now
        "basler" := fun x => h (hb.1 x)
    rw [m2, b1, b3, if_neg h1, if_neg h1, m4 "basler" (by decide), p5]
    exact ⟨rfl, rfl⟩

/-- C5 on `activeState` (last frames at 50, intervals 40 and 50): at clock 95 the
"monitoring" channel is due and "basler" is not; at clock 60 neither is due; at
clock 100 "basler" is due as well. -/
theorem processFrames_cadence_witness :
    attempts (processFrames plainCv (tickAt 95 0) activeState).2 "monitoring" = 1
    ∧ QMap.value (processFrames plainCv (tickAt 95 0) activeState).1.lastFrameTime "monitoring" 0
        = 95
    ∧ QMap.value (processFrames plainCv (tickAt 95 0) activeState).1.cameraFailed "monitoring"
        false = true
    ∧ attempts (processFrames plainCv (tickAt 95 0) activeState).2 "basler" = 0
    ∧ QMap.value (processFrames plainCv (tickAt 95 0) activeState).1.lastFrameTime "basler" 0
        = 50
    ∧ attempts (processFrames plainCv (tickAt 60 0) activeState).2 "monitoring" = 0
    ∧ QMap.value (processFrames plainCv (tickAt 60 0) activeState).1.lastFrameTime "monitoring" 0
        = 50
    ∧ attempts (processFrames plainCv (tickAt 100 0) activeState).2 "basler" = 1
    ∧ QMap.value (processFrames plainCv (tickAt 100 0) activeState).1.lastFrameTime "basler" 0
        = 100 :=
  have h := processFrames_cadence plainCv (tickAt 95 0) activeState (by decide)
  have hm := h.1 (by decide)
  have hb := h.2.2.2 (by decide)
  have hn := (processFrames_cadence plainCv (tickAt 60 0) activeState (by decide)).2.1
    (by decide)
  have hd := (processFrames_cadence plainCv (tickAt 100 0) activeState (by decide)).2.2.1
    (by decide)
  ⟨hm.1, hm.2.1, hm.2.2.trans (by decide), hb.1, hb.2, hn.1, hn.2.trans (by decide), hd.1, hd.2⟩

/-! ## Messages by channel -/

theorem hasFrameChanged_fst_congr (s t : Backend) (frame : Mat) (channel : String)
    (h1 : s.lastRawFrames = t.lastRawFrames)
    (h2 : s.frameChangeThreshold = t.frameChangeThreshold) :
    (hasFrameChanged s frame channel).1 = (hasFrameChanged t frame channel).1 := by
  rw [hasFrameChanged_fst, hasFrameChanged_fst]
  unfold cachedFrame thresholdOf
  rw [h1, h2]

theorem channelSum_le (m : Mat) (c : Nat) : channelSum m c ≤ 255 * (m.rows * m.cols) := by
  unfold channelSum
  have h := List.sum_le_card_nsmul
    ((List.range (m.rows * m.cols)).map (fun p => m.elem (p * m.channels + c))) 255
    (by
      intro x hx
      obtain ⟨p, _, rfl⟩ := List.mem_map.1 hx
      unfold Mat.elem
      omega)
  simpa [Nat.mul_comm] using h

theorem mean_le (m : Mat) (c : Nat) : mean m c ≤ 255 := by
  unfold mean
  split
  · by_cases h0 : m.rows * m.cols = 0
    · simp [h0]
    · have hpos : (0 : ℚ) < ((m.rows * m.cols : Nat) : ℚ) := by
        exact_mod_cast Nat.pos_of_ne_zero h0
      rw [div_le_iff₀ hpos]
      exact_mod_cast channelSum_le m c
  · norm_num

/-- The magnitude computed from 8-bit data never exceeds `3 * 255`. -/
theorem totalDiff_le (a b : Mat) : totalDiff a b ≤ 765 := by
  unfold totalDiff
  have h0 := mean_le (absdiff a b) 0
  have h1 := mean_le (absdiff a b) 1
  have h2 := mean_le (absdiff a b) 2
  linarith

/-! ## Bounds on the rounding -/

theorem bitLengthAux_spec : ∀ fuel n : Nat, n ≤ fuel →
    n < 2 ^ bitLengthAux fuel n ∧ (0 < n → 2 ^ (bitLengthAux fuel n - 1) ≤ n) := by
  intro fuel
  induction fuel with
  | zero =>
    intro n hn
    have h0 : n = 0 := Nat.le_zero.1 hn
    subst h0
    simp [bitLengthAux]
  | succ fuel ih =>
    intro n hn
    unfold bitLengthAux
    by_cases h0 : n = 0
    · subst h0
      simp
    · rw [if_neg h0]
      have hle : n / 2 ≤ fuel := by omega
      obtain ⟨i1, i2⟩ := ih (n / 2) hle
      refine ⟨?_, fun _ => ?_⟩
      · rw [pow_succ]
        omega
      · rw [Nat.add_sub_cancel]
        by_cases h2 : n / 2 = 0
        · have hb : bitLengthAux fuel (n / 2) = 0 := by
            rw [h2]
            cases fuel <;> simp [bitLengthAux]
          rw [hb]
          simp
          omega
        · have hpos : 0 < n / 2 := Nat.pos_of_ne_zero h2
          have i3 := i2 hpos
          have hb : 1 ≤ bitLengthAux fuel (n / 2) := by
            by_contra hcon
            have hz : bitLengthAux fuel (n / 2) = 0 := by omega
            rw [hz] at i1
            simp at i1
            omega
          have hp : 2 ^ bitLengthAux fuel (n / 2)
              = 2 * 2 ^ (bitLengthAux fuel (n / 2) - 1) := by
            rw [← pow_succ']
            congr 1
            omega
          rw [hp]
          omega

theorem bitLength_spec (n : Nat) :
    n < 2 ^ bitLength n ∧ (0 < n → 2 ^ (bitLength n - 1) ≤ n) :=
  bitLengthAux_spec n n (Nat.le_refl n)

theorem Binary64.toRat_nonneg (x : Binary64) : 0 ≤ x.toRat := by
  unfold Binary64.toRat
  positivity

/-- Rounding adds at most one part in `2 ^ 52`. -/
theorem Binary64.round_le (man : Nat) (exp : Int) :
    (Binary64.round man exp).toRat ≤ (man : ℚ) * (2 : ℚ) ^ exp * (1 + 1 / 2 ^ 52) := by
  have hx : (0 : ℚ) ≤ (man : ℚ) * (2 : ℚ) ^ exp := by positivity
  unfold Binary64.round
  by_cases hs : bitLength man ≤ 53
  · rw [if_pos hs]
    unfold Binary64.toRat
    nlinarith [hx]
  · rw [if_neg hs]
    obtain ⟨b1, b2⟩ := bitLength_spec man
    have hpos : 0 < man := by
      rcases Nat.eq_zero_or_pos man with h | h
      · subst h
        exact absurd (by decide : bitLength 0 ≤ 53) hs
      · exact h
    have b3 := b2 hpos
    have hlen : bitLength man - 1 = (bitLength man - 53) + 52 := by omega
    rw [hlen, pow_add] at b3
    have hdiv : man / 2 ^ (bitLength man - 53) * 2 ^ (bitLength man - 53) ≤ man :=
      Nat.div_mul_le_self _ _
    have key : ∀ t : Nat, t ≤ man / 2 ^ (bitLength man - 53) + 1 →
        (⟨t, exp + ((bitLength man - 53 : Nat) : Int)⟩ : Binary64).toRat
          ≤ (man : ℚ) * (2 : ℚ) ^ exp * (1 + 1 / 2 ^ 52) := by
      intro t ht
      unfold Binary64.toRat
      dsimp only
      rw [zpow_add₀ (by norm_num : (2 : ℚ) ≠ 0), zpow_natCast]
      have h2e : (0 : ℚ) < (2 : ℚ) ^ exp := by positivity
      have hA : (t : ℚ) * 2 ^ (bitLength man - 53) ≤ (man : ℚ) * (1 + 1 / 2 ^ 52) := by
        have h1 : (t : ℚ) ≤ ((man / 2 ^ (bitLength man - 53) + 1 : Nat) : ℚ) := by
          exact_mod_cast ht
        have h3 : ((man / 2 ^ (bitLength man - 53) * 2 ^ (bitLength man - 53) : Nat) : ℚ)
            ≤ (man : ℚ) := by exact_mod_cast hdiv
        have h4 : ((2 ^ (bitLength man - 53) * 2 ^ 52 : Nat) : ℚ) ≤ (man : ℚ) := by
          exact_mod_cast b3
        push_cast at h1 h3 h4
        have h5 : (0 : ℚ) < (2 : ℚ) ^ (bitLength man - 53) := by positivity
        have h6 : (t : ℚ) * 2 ^ (bitLength man - 53)
            ≤ ((man / 2 ^ (bitLength man - 53) : Nat) : ℚ) * 2 ^ (bitLength man - 53)
              + 2 ^ (bitLength man - 53) := by nlinarith
        have h7 : (2 : ℚ) ^ (bitLength man - 53) ≤ (man : ℚ) * (1 / 2 ^ 52) := by
          rw [mul_one_div, le_div_iff₀ (by positivity)]
          exact h4
        linarith
      calc (t : ℚ) * ((2 : ℚ) ^ exp * 2 ^ (bitLength man - 53))
          = ((t : ℚ) * 2 ^ (bitLength man - 53)) * (2 : ℚ) ^ exp := by ring
        _ ≤ ((man : ℚ) * (1 + 1 / 2 ^ 52)) * (2 : ℚ) ^ exp :=
            mul_le_mul_of_nonneg_right hA (le_of_lt h2e)
        _ = (man : ℚ) * (2 : ℚ) ^ exp * (1 + 1 / 2 ^ 52) := by ring
    dsimp only
    split
    · exact key _ (Nat.le_refl _)
    · exact key _ (Nat.le_succ _)

theorem Binary64.ofNat_le (n : Nat) :
    (Binary64.ofNat n).toRat ≤ (n : ℚ) * (1 + 1 / 2 ^ 52) := by
  have h := Binary64.round_le n 0
  rw [zpow_zero, mul_one] at h
  exact h

theorem Binary64.mul_le (a b : Binary64) :
    (Binary64.mul a b).toRat ≤ a.toRat * b.toRat * (1 + 1 / 2 ^ 52) := by
  have h := Binary64.round_le (a.man * b.man) (a.exp + b.exp)
  have e : ((a.man * b.man : Nat) : ℚ) * (2 : ℚ) ^ (a.exp + b.exp) = a.toRat * b.toRat := by
    unfold Binary64.toRat
    rw [zpow_add₀ (by norm_num : (2 : ℚ) ≠ 0)]
    push_cast
    ring
  rw [e] at h
  exact h

theorem Binary64.add_le (a b : Binary64) :
    (Binary64.add a b).toRat ≤ (a.toRat + b.toRat) * (1 + 1 / 2 ^ 52) := by
  have h := Binary64.round_le
    (a.man * 2 ^ (a.exp - min a.exp b.exp).toNat + b.man * 2 ^ (b.exp - min a.exp b.exp).toNat)
    (min a.exp b.exp)
  have ha : (0 : Int) ≤ a.exp - min a.exp b.exp := by
    have := min_le_left a.exp b.exp
    omega
  have hb : (0 : Int) ≤ b.exp - min a.exp b.exp := by
    have := min_le_right a.exp b.exp
    omega
  have two : (2 : ℚ) ≠ 0 := by norm_num
  have ea : (2 : ℚ) ^ (a.exp - min a.exp b.exp).toNat * (2 : ℚ) ^ (min a.exp b.exp)
      = (2 : ℚ) ^ a.exp := by
    rw [← zpow_natCast, Int.toNat_of_nonneg ha, ← zpow_add₀ two]
    congr 1
    ring
  have eb : (2 : ℚ) ^ (b.exp - min a.exp b.exp).toNat * (2 : ℚ) ^ (min a.exp b.exp)
      = (2 : ℚ) ^ b.exp := by
    rw [← zpow_natCast, Int.toNat_of_nonneg hb, ← zpow_add₀ two]
    congr 1
    ring
  have e : ((a.man * 2 ^ (a.exp - min a.exp b.exp).toNat
        + b.man * 2 ^ (b.exp - min a.exp b.exp).toNat : Nat) : ℚ) * (2 : ℚ) ^ (min a.exp b.exp)
      = a.toRat + b.toRat := by
    unfold Binary64.toRat
    push_cast
    rw [add_mul, mul_assoc, mul_assoc, ea, eb]
  rw [e] at h
  exact h

theorem Binary64.recip_le (n : Nat) (hn : 0 < n) :
    (Binary64.recip n).toRat ≤ 1 / (n : ℚ) * (1 + 1 / 2 ^ 64) * (1 + 1 / 2 ^ 52) := by
  have h := Binary64.round_le
    (2 * (2 ^ (bitLength n + 63) / n) + (if 2 ^ (bitLength n + 63) % n = 0 then 0 else 1))
    (-((bitLength n + 63 : Nat) : Int) - 1)
  have hnq : (0 : ℚ) < (n : ℚ) := by exact_mod_cast hn
  have hexp : (2 : ℚ) ^ (-((bitLength n + 63 : Nat) : Int) - 1)
      = 1 / 2 ^ (bitLength n + 64) := by
    have : (-((bitLength n + 63 : Nat) : Int) - 1) = -((bitLength n + 64 : Nat) : Int) := by
      push_cast
      ring
    rw [this, zpow_neg, zpow_natCast, one_div]
  have hq : 2 ^ (bitLength n + 63) / n * n ≤ 2 ^ (bitLength n + 63) := Nat.div_mul_le_self _ _
  have hbit : (if 2 ^ (bitLength n + 63) % n = 0 then 0 else 1) ≤ 1 := by split <;> omega
  have hlt : n < 2 ^ bitLength n := (bitLength_spec n).1
  have hman : (2 * (2 ^ (bitLength n + 63) / n)
      + (if 2 ^ (bitLength n + 63) % n = 0 then 0 else 1)) * n
      ≤ 2 ^ (bitLength n + 64) + 2 ^ bitLength n := by
    have h1 : 2 ^ (bitLength n + 64) = 2 * 2 ^ (bitLength n + 63) := by
      rw [← pow_succ']
    have h2 : (if 2 ^ (bitLength n + 63) % n = 0 then 0 else 1) * n ≤ n := by
      split <;> simp
    rw [add_mul, mul_assoc, h1]
    omega
  have hmanq : ((2 * (2 ^ (bitLength n + 63) / n)
      + (if 2 ^ (bitLength n + 63) % n = 0 then 0 else 1) : Nat) : ℚ) * (n : ℚ)
      ≤ 2 ^ (bitLength n + 64) + 2 ^ bitLength n := by
    exact_mod_cast hman
  have hexact : ((2 * (2 ^ (bitLength n + 63) / n)
      + (if 2 ^ (bitLength n + 63) % n = 0 then 0 else 1) : Nat) : ℚ)
        * (2 : ℚ) ^ (-((bitLength n + 63 : Nat) : Int) - 1)
      ≤ 1 / (n : ℚ) * (1 + 1 / 2 ^ 64) := by
    rw [hexp, mul_one_div, div_le_iff₀ (by positivity)]
    have h3 : (1 / (n : ℚ) * (1 + 1 / 2 ^ 64)) * 2 ^ (bitLength n + 64)
        = (2 ^ (bitLength n + 64) + 2 ^ bitLength n) / (n : ℚ) := by
      rw [pow_add]
      field_simp
      ring
    rw [h3, le_div_iff₀ hnq]
    exact hmanq
  unfold Binary64.recip
  calc _ ≤ _ := h
    _ ≤ 1 / (n : ℚ) * (1 + 1 / 2 ^ 64) * (1 + 1 / 2 ^ 52) :=
        mul_le_mul_of_nonneg_right hexact (by norm_num)

theorem scale_cancel (x : ℚ) (hx : x ≠ 0) :
    (255 * x * (1 + 1 / 2 ^ 52)) * (1 / x * (1 + 1 / 2 ^ 64) * (1 + 1 / 2 ^ 52))
        * (1 + 1 / 2 ^ 52)
      = 255 * ((1 + 1 / 2 ^ 52) ^ 3 * (1 + 1 / 2 ^ 64)) := by
  field_simp
  ring

theorem meanDouble_le (m : Mat) (c : Nat) :
    (meanDouble m c).toRat ≤ 255 * ((1 + 1 / 2 ^ 52) ^ 3 * (1 + 1 / 2 ^ 64)) := by
  have hd : (0 : ℚ) ≤ 1 + 1 / 2 ^ 52 := by norm_num
  have hmul := Binary64.mul_le (Binary64.ofNat (if c < m.channels then channelSum m c else 0))
    (meanScale (m.rows * m.cols))
  unfold meanDouble
  by_cases h0 : m.rows * m.cols = 0
  · have hz : (meanScale (m.rows * m.cols)).toRat = 0 := by
      simp [meanScale, h0, Binary64.toRat]
    rw [hz] at hmul
    have : (0 : ℚ) ≤ 255 * ((1 + 1 / 2 ^ 52) ^ 3 * (1 + 1 / 2 ^ 64)) := by positivity
    linarith
  · have hN : 0 < m.rows * m.cols := Nat.pos_of_ne_zero h0
    have hNq : (0 : ℚ) < ((m.rows * m.cols : Nat) : ℚ) := by exact_mod_cast hN
    have hS : (if c < m.channels then channelSum m c else 0) ≤ 255 * (m.rows * m.cols) := by
      split
      · exact channelSum_le m c
      · exact Nat.zero_le _
    have hSq : (((if c < m.channels then channelSum m c else 0) : Nat) : ℚ)
        ≤ 255 * ((m.rows * m.cols : Nat) : ℚ) := by exact_mod_cast hS
    have hA := Binary64.ofNat_le (if c < m.channels then channelSum m c else 0)
    have hB : (meanScale (m.rows * m.cols)).toRat
        ≤ 1 / ((m.rows * m.cols : Nat) : ℚ) * (1 + 1 / 2 ^ 64) * (1 + 1 / 2 ^ 52) := by
      unfold meanScale
      rw [if_neg h0]
      exact Binary64.recip_le _ hN
    have hA2 : (Binary64.ofNat (if c < m.channels then channelSum m c else 0)).toRat
        ≤ 255 * ((m.rows * m.cols : Nat) : ℚ) * (1 + 1 / 2 ^ 52) :=
      le_trans hA (mul_le_mul_of_nonneg_right hSq hd)
    have hAB : (Binary64.ofNat (if c < m.channels then channelSum m c else 0)).toRat
          * (meanScale (m.rows * m.cols)).toRat
        ≤ (255 * ((m.rows * m.cols : Nat) : ℚ) * (1 + 1 / 2 ^ 52))
          * (1 / ((m.rows * m.cols : Nat) : ℚ) * (1 + 1 / 2 ^ 64) * (1 + 1 / 2 ^ 52)) :=
      mul_le_mul hA2 hB (Binary64.toRat_nonneg _) (by positivity)
    have hsimp : (255 * ((m.rows * m.cols : Nat) : ℚ) * (1 + 1 / 2 ^ 52))
          * (1 / ((m.rows * m.cols : Nat) : ℚ) * (1 + 1 / 2 ^ 64) * (1 + 1 / 2 ^ 52))
          * (1 + 1 / 2 ^ 52)
        = 255 * ((1 + 1 / 2 ^ 52) ^ 3 * (1 + 1 / 2 ^ 64)) :=
      scale_cancel _ (ne_of_gt hNq)
    calc _ ≤ _ := hmul
      _ ≤ _ := mul_le_mul_of_nonneg_right hAB hd
      _ = _ := hsimp

/-- The magnitude computed in `double` from 8-bit data stays below 766. -/
theorem totalDiffDouble_lt (a b : Mat) : (totalDiffDouble a b).toRat < 766 := by
  have hd : (0 : ℚ) ≤ 1 + 1 / 2 ^ 52 := by norm_num
  have h0 := meanDouble_le (absdiff a b) 0
  have h1 := meanDouble_le (absdiff a b) 1
  have h2 := meanDouble_le (absdiff a b) 2
  have hk : (255 : ℚ) * ((1 + 1 / 2 ^ 52) ^ 3 * (1 + 1 / 2 ^ 64)) ≤ 255 + 1 / 1000 := by
    norm_num
  have s1 := Binary64.add_le (meanDouble (absdiff a b) 0) (meanDouble (absdiff a b) 1)
  have s2 := Binary64.add_le
    (Binary64.add (meanDouble (absdiff a b) 0) (meanDouble (absdiff a b) 1))
    (meanDouble (absdiff a b) 2)
  have s3 : (Binary64.add (meanDouble (absdiff a b) 0) (meanDouble (absdiff a b) 1)).toRat
      ≤ (510 + 2 / 1000) * (1 + 1 / 2 ^ 52) :=
    le_trans s1 (mul_le_mul_of_nonneg_right (by linarith) hd)
  have s4 : (totalDiffDouble a b).toRat
      ≤ ((510 + 2 / 1000) * (1 + 1 / 2 ^ 52) + (255 + 1 / 1000)) * (1 + 1 / 2 ^ 52) :=
    le_trans s2 (mul_le_mul_of_nonneg_right (by linarith) hd)
  have s5 : ((510 + 2 / 1000 : ℚ) * (1 + 1 / 2 ^ 52) + (255 + 1 / 1000)) * (1 + 1 / 2 ^ 52)
      < 766 := by norm_num
  exact lt_of_le_of_lt s4 s5

/-- For a threshold of at least 766 the detector computes the same in `double`
as in exact arithmetic. -/
theorem hasFrameChangedDouble_eq (s : Backend) (newFrame : Mat) (channel : String)
    (ht : 766 ≤ thresholdOf s channel) :
    hasFrameChangedDouble s newFrame channel = hasFrameChanged s newFrame channel := by
  have h1 : ¬ ((totalDiffDouble newFrame (cachedFrame s channel)).toRat
      > (thresholdOf s channel : ℚ)) := by
    have := totalDiffDouble_lt newFrame (cachedFrame s channel)
    have h2 : (766 : ℚ) ≤ (thresholdOf s channel : ℚ) := by exact_mod_cast ht
    intro h
    linarith
  have h3 : ¬ (totalDiff newFrame (cachedFrame s channel) > (thresholdOf s channel : ℚ)) := by
    have := totalDiff_le newFrame (cachedFrame s channel)
    have h2 : (766 : ℚ) ≤ (thresholdOf s channel : ℚ) := by exact_mod_cast ht
    intro h
    linarith
  apply Prod.ext
  · rw [hasFrameChangedDouble_fst, hasFrameChanged_fst]
    simp [h1, h3]
  · rw [hasFrameChangedDouble_snd, hasFrameChanged_snd]

/-- Header of the synthetic "monitoring" frame: 240 rows, 320 columns, `CV_8UC3`. -/
theorem createFakeFrame_monitoring_header (cv : Cv) (n : Int) (w : Nat) (noise : List Nat) :
    (createFakeFrame cv "monitoring" n w noise).rows = 240
    ∧ (createFakeFrame cv "monitoring" n w noise).cols = 320
    ∧ (createFakeFrame cv "monitoring" n w noise).type = CV_8UC3 := by
  have h : ¬ ("monitoring" = "basler") := by decide
  unfold createFakeFrame
  rw [if_neg h, if_pos rfl]
  exact ⟨rfl, rfl, rfl⟩

theorem flatten_replicate_length (k : Nat) (x : List Nat) :
    (List.replicate k x).flatten.length = k * x.length := by
  induction k with
  | zero => simp
  | succ k ih =>
    simp only [List.replicate_succ, List.flatten_cons, List.length_append, ih]
    ring

theorem plainCv_fake_data (n : Int) (w : Nat) (noise : List Nat) :
    (createFakeFrame plainCv "monitoring" n w noise).data
      = List.zipWith
          (fun (x y : Nat) => saturateU8 (roundHalfEven (0.8 * (x : ℚ) + 0.2 * (y : ℚ) + 0)))
          (List.replicate (240 * 320) [30, 30, 40]).flatten noise := by
  have h : ¬ ("monitoring" = "basler") := by decide
  unfold createFakeFrame
  rw [if_neg h, if_pos rfl]
  simp only [Mat.draw, Mat.setTo, Mat.zeros, plainCv]

theorem plainCv_fake_length (n : Int) (w : Nat) (noise : List Nat)
    (h : noise.length = 230400) :
    (createFakeFrame plainCv "monitoring" n w noise).data.length = 230400 := by
  rw [plainCv_fake_data, List.length_zipWith, flatten_replicate_length, h]
  rfl

theorem plainCv_fake_head (n : Int) (w a : Nat) (noise : List Nat) :
    (createFakeFrame plainCv "monitoring" n w (a :: noise)).data.head?
      = some (saturateU8 (roundHalfEven (0.8 * ((30 : Nat) : ℚ) + 0.2 * (a : ℚ) + 0))) := by
  have hr : List.replicate (240 * 320) [30, 30, 40]
      = [30, 30, 40] :: List.replicate 76799 [30, 30, 40] := rfl
  rw [plainCv_fake_data, hr]
  rfl

theorem plainCv_imencode_of_length (f : Mat) (ext : String) (params : List Int)
    (h : f.data.length = f.rows * f.cols * f.channels) :
    plainCv.imencode ext f params = some (f.data.map (fun v => v % 256)) := by
  simp only [plainCv, h, if_true]

theorem plainCv_fake_imencode (n : Int) (w : Nat) (noise : List Nat)
    (h : noise.length = 230400) :
    plainCv.imencode ".jpg" (createFakeFrame plainCv "monitoring" n w noise) monitoringParams
      = some ((createFakeFrame plainCv "monitoring" n w noise).data.map (fun v => v % 256)) := by
  apply plainCv_imencode_of_length
  obtain ⟨h1, h2, h3⟩ := createFakeFrame_monitoring_header plainCv n w noise
  rw [plainCv_fake_length n w noise h, h1, h2]
  unfold Mat.channels
  rw [h3]
  rfl

theorem blend_30_0 :
    saturateU8 (roundHalfEven (0.8 * ((30 : Nat) : ℚ) + 0.2 * ((0 : Nat) : ℚ) + 0)) = 24 := by
  norm_num [roundHalfEven, saturateU8, clamp]
  rfl

theorem blend_30_45 :
    saturateU8 (roundHalfEven (0.8 * ((30 : Nat) : ℚ) + 0.2 * ((45 : Nat) : ℚ) + 0)) = 33 := by
  norm_num [roundHalfEven, saturateU8, clamp]
  rfl

/-! ## C10: what the synthetic frame depends on -/

/-- C10 fails as stated: two calls with the same camera type "monitoring" and the
same frame number 1 (and even the same wall clock) return frames with different
pixel content when the random generator delivers different noise; the first
bytes are 24 and 33. -/
theorem createFakeFrame_noise_counterexample :
    createFakeFrame plainCv "monitoring" 1 1700000000 (List.replicate 230400 0)
      ≠ createFakeFrame plainCv "monitoring" 1 1700000000 speckleNoise := by
  intro h
  have h1 := congrArg (fun m => m.data.head?) h
  have hr : List.replicate 230400 0 = 0 :: List.replicate 230399 0 := rfl
  have hs : speckleNoise = 45 :: List.replicate 230399 0 := rfl
  simp only [] at h1
  rw [hr, hs, plainCv_fake_head, plainCv_fake_head, blend_30_0, blend_30_45] at h1
  cases h1

/-- C10 (amended): the frame returned by `createFakeFrame` is determined by the
camera type and the frame number together with what the body reads from outside:
for "basler" the last six decimal digits of the wall clock (the noise is not
read), for "monitoring" the noise drawn from the random generator (the clock is
not read), and for every other camera type nothing: the result is the all-zero
240x320 `CV_8UC3` frame. -/
theorem createFakeFrame_dependencies (cv : Cv) (cameraType : String) (frameNumber : Int)
    (clock1 clock2 : Nat) (noise1 noise2 : List Nat) :
    (cameraType = "basler" → clockDigits clock1 = clockDigits clock2 →
      createFakeFrame cv cameraType frameNumber clock1 noise1
        = createFakeFrame cv cameraType frameNumber clock2 noise2)
    ∧ (cameraType = "monitoring" → noise1 = noise2 →
      createFakeFrame cv cameraType frameNumber clock1 noise1
        = createFakeFrame cv cameraType frameNumber clock2 noise2)
    ∧ (cameraType ≠ "basler" → cameraType ≠ "monitoring" →
      createFakeFrame cv cameraType frameNumber clock1 noise1 = Mat.zeros 240 320 CV_8UC3) := by
  refine ⟨?_, ?_, ?_⟩
  · intro hc hd
    subst hc
    unfold clockDigits at hd
    unfold createFakeFrame
    simp only [if_true, hd]
  · intro hc hn
    subst hc hn
    have h : ¬ ("monitoring" = "basler") := by decide
    unfold createFakeFrame
    rw [if_neg h, if_pos rfl, if_neg h]
  · intro h1 h2
    unfold createFakeFrame
    rw [if_neg h1, if_neg h2]

/-- C10 (amended) on concrete calls: two clocks with the same last six digits and
different noise give the same "basler" frame, two clocks and the same noise give
the same "monitoring" frame, and the camera type "other" gives the zero frame. -/
theorem createFakeFrame_dependencies_witness :
    createFakeFrame plainCv "basler" 7 1700000123 [1, 2, 3]
        = createFakeFrame plainCv "basler" 7 1800000123 []
    ∧ createFakeFrame plainCv "monitoring" 7 1700000123 speckleNoise
        = createFakeFrame plainCv "monitoring" 7 1800000999 speckleNoise
    ∧ createFakeFrame plainCv "other" 7 1700000123 [1, 2, 3] = Mat.zeros 240 320 CV_8UC3 :=
  ⟨(createFakeFrame_dependencies plainCv "basler" 7 1700000123 1800000123 [1, 2, 3] []).1 rfl
      (by decide),
    (createFakeFrame_dependencies plainCv "monitoring" 7 1700000123 1800000999 speckleNoise
      speckleNoise).2.1 rfl rfl,
    (createFakeFrame_dependencies plainCv "other" 7 1700000123 1700000123 [1, 2, 3]
      [1, 2, 3]).2.2 (by decide) (by decide)⟩

/-! ## The traces of the two channel parts hold no timer call -/

theorem encodeAndSendFrame_no_timer (cv : Cv) (sock : Nat → SocketState) (s : Backend)
    (frame : Mat) (channel : String) :
    ∀ e ∈ (encodeAndSendFrame cv sock s frame channel).2,
      e ≠ Event.timerStop ∧ ∀ ms, e ≠ Event.timerStart ms := by
  obtain ⟨msgs, h1, h2⟩ := encodeAndSendFrame_trace cv sock s frame channel
  intro e he
  rw [h1] at he
  rcases List.mem_cons.1 he with h | h
  · subst h
    exact ⟨by simp, fun ms => by simp⟩
  · have hs := h2 e h
    cases e <;> simp [Event.isSent] at hs ⊢

theorem processFramesMonitoring_no_timer (cv : Cv) (env : TickEnv) (s : Backend) :
    ∀ e ∈ (processFramesMonitoring cv env s).2.2,
      e ≠ Event.timerStop ∧ ∀ ms, e ≠ Event.timerStart ms := by
  unfold processFramesMonitoring
  dsimp only
  split
  · split
    · exact encodeAndSendFrame_no_timer _ _ _ _ _
    · exact encodeAndSendFrame_no_timer _ _ _ _ _
  · intro e he
    simp at he

theorem processFramesBasler_no_timer (cv : Cv) (env : TickEnv) (s : Backend) :
    ∀ e ∈ (processFramesBasler cv env s).2.2,
      e ≠ Event.timerStop ∧ ∀ ms, e ≠ Event.timerStart ms := by
  unfold processFramesBasler
  dsimp only
  split
  · exact encodeAndSendFrame_no_timer _ _ _ _ _
  · intro e he
    simp at he

/-! ## C13: the idle branch of a tick -/

/-- C13: in a tick with at least one viewer the "basler" part reports active in
both branches of its cadence check, so `anyActive` is true at the end of the
tick whatever the "monitoring" part reports; the tick issues no `stop` (and no
`start`) call on the timer and leaves `timer->isActive()` as it was. -/
theorem processFrames_never_idles (cv : Cv) (env : TickEnv) (s : Backend)
    (hv : s.clients ≠ []) :
    (processFramesBasler cv env
        (processFramesMonitoring cv env (processFramesPrologue env s)).1).2.1 = true
    ∧ ((processFramesMonitoring cv env (processFramesPrologue env s)).2.1
        || (processFramesBasler cv env
            (processFramesMonitoring cv env (processFramesPrologue env s)).1).2.1) = true
    ∧ (processFrames cv env s).1.timerActive = s.timerActive
    ∧ Event.timerStop ∉ (processFrames cv env s).2
    ∧ (∀ ms, Event.timerStart ms ∉ (processFrames cv env s).2) := by
  obtain ⟨p1, p2, p3, p4, p5, p6, p7, p8⟩ := processFramesPrologue_frame env s
  obtain ⟨m1, m2, m3, m4, m5, m6, m7, m8, m9⟩ :=
    processFramesMonitoring_facts cv env (processFramesPrologue env s)
  obtain ⟨b1, b2, b3, b4, b5, b6, b7, b8⟩ :=
    processFramesBasler_facts cv env
      (processFramesMonitoring cv env (processFramesPrologue env s)).1
  have hany : ((processFramesMonitoring cv env (processFramesPrologue env s)).2.1
      || (processFramesBasler cv env
          (processFramesMonitoring cv env (processFramesPrologue env s)).1).2.1) = true := by
    rw [b8, Bool.or_true]
  obtain ⟨e1, e2, e3, e4, e5, e6⟩ := processFramesEpilogue_facts env
    (processFramesBasler cv env (processFramesMonitoring cv env (processFramesPrologue env s)).1).1
    ((processFramesMonitoring cv env (processFramesPrologue env s)).2.1
      || (processFramesBasler cv env
          (processFramesMonitoring cv env (processFramesPrologue env s)).1).2.1)
  have hev : ∀ e ∈ (processFrames cv env s).2,
      e ≠ Event.timerStop ∧ ∀ ms, e ≠ Event.timerStart ms := by
    rw [processFrames_eq cv env s hv]
    intro e he
    dsimp only at he
    rw [e5, hany] at he
    simp only [if_true, List.append_nil, List.mem_append] at he
    rcases he with h | h
    · exact processFramesMonitoring_no_timer cv env _ e h
    · exact processFramesBasler_no_timer cv env _ e h
  refine ⟨b8, hany, ?_, ?_, ?_⟩
  · rw [processFrames_eq cv env s hv]
    dsimp only
    rw [e6 hany, b7, m9, p2]
  · intro h
    exact (hev _ h).1 rfl
  · intro ms h
    exact (hev _ h).2 ms rfl

/-- C13 on `activeState` with the RTSP source closed: at clock 60 no channel is
due, at clock 95 only "monitoring" is (and falls back to the synthetic frame);
the timer stays active and receives no call. -/
theorem processFrames_never_idles_witness :
    (processFrames plainCv (tickAt 60 0) activeState).1.timerActive = true
    ∧ Event.timerStop ∉ (processFrames plainCv (tickAt 60 0) activeState).2
    ∧ (processFrames plainCv (tickAt 95 0) activeState).1.timerActive = true
    ∧ Event.timerStop ∉ (processFrames plainCv (tickAt 95 0) activeState).2 :=
  have h1 := processFrames_never_idles plainCv (tickAt 60 0) activeState (by decide)
  have h2 := processFrames_never_idles plainCv (tickAt 95 0) activeState (by decide)
  ⟨h1.2.2.1.trans (by decide), h1.2.2.2.1, h2.2.2.1.trans (by decide), h2.2.2.2.1⟩

/-! ## Cache entries along the operations -/

theorem cacheEntry_congr (s t : Backend) (h1 : t.lastRawFrames = s.lastRawFrames)
    (h2 : t.lastEncodedFrames = s.lastEncodedFrames) (channel : String) :
    cacheEntry t channel = cacheEntry s channel := by
  unfold cacheEntry
  rw [h1, h2]

theorem cacheEntry_cacheFrame (s : Backend) (frame : Mat) (buffer : List Nat)
    (channel ch : String) :
    cacheEntry (cacheFrame s frame buffer channel) ch
      = if channel = ch then (true, frame, true, buffer) else cacheEntry s ch := by
  unfold cacheEntry cacheFrame
  simp only [QMap.contains_assign, QMap.value_assign]
  by_cases h : channel = ch <;> simp [h]

theorem CacheStep.refl (cv : Cv) (s : Backend) : CacheStep cv s s :=
  fun _ => Or.inl rfl

theorem CacheStep.of_eq (cv : Cv) (s t : Backend) (h1 : t.lastRawFrames = s.lastRawFrames)
    (h2 : t.lastEncodedFrames = s.lastEncodedFrames) : CacheStep cv s t :=
  fun ch => Or.inl (cacheEntry_congr s t h1 h2 ch)

theorem CacheStep.trans (cv : Cv) (s t u : Backend) (h1 : CacheStep cv s t)
    (h2 : CacheStep cv t u) : CacheStep cv s u := by
  intro ch
  rcases h2 ch with h | h
  · rcases h1 ch with g | g
    · exact Or.inl (h.trans g)
    · obtain ⟨frame, buffer, g1, g2, g3⟩ := g
      exact Or.inr ⟨frame, buffer, g1, g2, h.trans g3⟩
  · exact Or.inr h

theorem CacheStep.congr (cv : Cv) (s t s2 t2 : Backend) (h : CacheStep cv s t)
    (hs1 : s2.lastRawFrames = s.lastRawFrames) (hs2 : s2.lastEncodedFrames = s.lastEncodedFrames)
    (ht1 : t2.lastRawFrames = t.lastRawFrames) (ht2 : t2.lastEncodedFrames = t.lastEncodedFrames) :
    CacheStep cv s2 t2 := by
  intro ch
  rw [cacheEntry_congr s s2 hs1 hs2 ch, cacheEntry_congr t t2 ht1 ht2 ch]
  exact h ch

/-- The state after `encodeAndSendFrame` is the state before, or the state before
with the frame and the codec's output for it stored by `cacheFrame`. -/
theorem encodeAndSendFrame_state (cv : Cv) (sock : Nat → SocketState) (s : Backend)
    (frame : Mat) (channel : String) :
    (encodeAndSendFrame cv sock s frame channel).1 = s
    ∨ ∃ buffer, frame.empty = false
        ∧ cv.imencode ".jpg" frame (encodeParams channel) = some buffer
        ∧ (encodeAndSendFrame cv sock s frame channel).1 = cacheFrame s frame buffer channel := by
  rw [encodeAndSendFrame_eq]
  by_cases h1 : (frame.empty || s.clients.isEmpty) = true
  · simp [h1]
  · have h1f : (frame.empty || s.clients.isEmpty) = false := by simpa using h1
    have hfe : frame.empty = false := by
      cases hf : frame.empty
      · rfl
      · simp [hf] at h1f
    simp only [h1f, Bool.false_eq_true, if_false]
    split
    · exact Or.inl rfl
    · cases henc : cv.imencode ".jpg" frame (encodeParams channel) with
      | none => exact Or.inl rfl
      | some buffer => exact Or.inr ⟨buffer, hfe, rfl, rfl⟩

theorem cacheStep_encodeAndSendFrame (cv : Cv) (sock : Nat → SocketState) (s : Backend)
    (frame : Mat) (channel : String) :
    CacheStep cv s (encodeAndSendFrame cv sock s frame channel).1 := by
  rcases encodeAndSendFrame_state cv sock s frame channel with h | ⟨buffer, h1, h2, h3⟩
  · rw [h]
    exact CacheStep.refl cv s
  · rw [h3]
    intro ch
    rw [cacheEntry_cacheFrame]
    by_cases hc : channel = ch
    · subst hc
      exact Or.inr ⟨frame, buffer, h1, h2, by simp⟩
    · exact Or.inl (by simp [hc])

/-- A state that agrees in its caches with the result of `encodeAndSendFrame` on a
state that agrees in its caches with `s` is a cache step away from `s`. -/
theorem cacheStep_encode_update (cv : Cv) (sock : Nat → SocketState) (s0 : Backend)
    (frame : Mat) (channel : String) (s t : Backend)
    (ht1 : t.lastRawFrames = (encodeAndSendFrame cv sock s0 frame channel).1.lastRawFrames)
    (ht2 : t.lastEncodedFrames
      = (encodeAndSendFrame cv sock s0 frame channel).1.lastEncodedFrames)
    (hs1 : s0.lastRawFrames = s.lastRawFrames)
    (hs2 : s0.lastEncodedFrames = s.lastEncodedFrames) : CacheStep cv s t :=
  CacheStep.congr cv s0 (encodeAndSendFrame cv sock s0 frame channel).1 s t
    (cacheStep_encodeAndSendFrame cv sock s0 frame channel) hs1.symm hs2.symm ht1 ht2

theorem encodeAndSendFrame_lastClientCleanup (cv : Cv) (sock : Nat → SocketState) (s : Backend)
    (frame : Mat) (channel : String) :
    (encodeAndSendFrame cv sock s frame channel).1.lastClientCleanup = s.lastClientCleanup := by
  rcases encodeAndSendFrame_state cv sock s frame channel with h | ⟨buffer, _, _, h3⟩
  · rw [h]
  · rw [h3]
    rfl

theorem processFramesPrologue_lastClientCleanup (env : TickEnv) (s : Backend) :
    (processFramesPrologue env s).lastClientCleanup = s.lastClientCleanup := by
  unfold processFramesPrologue checkCameraConnections
  dsimp only
  split
  · split
    · split <;> rfl
    · rfl
  · rfl

theorem processFramesMonitoring_more (cv : Cv) (env : TickEnv) (s : Backend) :
    CacheStep cv s (processFramesMonitoring cv env s).1
    ∧ (processFramesMonitoring cv env s).1.frameChangeThreshold = s.frameChangeThreshold
    ∧ (processFramesMonitoring cv env s).1.lastClientCleanup = s.lastClientCleanup := by
  unfold processFramesMonitoring
  dsimp only
  split
  · split
    · refine ⟨cacheStep_encode_update cv env.sock _ _ _ _ _ rfl rfl rfl rfl, ?_, ?_⟩
      · exact (encodeAndSendFrame_frame cv env.sock _ _ _).2.2.2.2.2.2.2
      · exact encodeAndSendFrame_lastClientCleanup cv env.sock _ _ _
    · refine ⟨cacheStep_encode_update cv env.sock _ _ _ _ _ rfl rfl rfl rfl, ?_, ?_⟩
      · exact (encodeAndSendFrame_frame cv env.sock _ _ _).2.2.2.2.2.2.2
      · exact encodeAndSendFrame_lastClientCleanup cv env.sock _ _ _
  · exact ⟨CacheStep.of_eq cv _ _ rfl rfl, rfl, rfl⟩

theorem processFramesBasler_more (cv : Cv) (env : TickEnv) (s : Backend) :
    CacheStep cv s (processFramesBasler cv env s).1
    ∧ (processFramesBasler cv env s).1.frameChangeThreshold = s.frameChangeThreshold
    ∧ (processFramesBasler cv env s).1.lastClientCleanup = s.lastClientCleanup := by
  unfold processFramesBasler
  dsimp only
  split
  · refine ⟨cacheStep_encode_update cv env.sock _ _ _ _ _ rfl rfl rfl rfl, ?_, ?_⟩
    · exact (encodeAndSendFrame_frame cv env.sock _ _ _).2.2.2.2.2.2.2
    · exact encodeAndSendFrame_lastClientCleanup cv env.sock _ _ _
  · exact ⟨CacheStep.of_eq cv _ _ rfl rfl, rfl, rfl⟩

theorem processFramesEpilogue_more (env : TickEnv) (s : Backend) (anyActive : Bool) :
    (processFramesEpilogue env s anyActive).1.frameChangeThreshold = s.frameChangeThreshold
    ∧ (processFramesEpilogue env s anyActive).1.clients
        = (if env.now - s.lastClientCleanup ≥ clientCleanupInterval
            then (cleanupDisconnectedClients env.sock s).clients else s.clients) := by
  unfold processFramesEpilogue cleanupDisconnectedClients
  dsimp only
  cases anyActive <;>
    (simp only [Bool.not_false, Bool.not_true, if_true, Bool.false_eq_true, if_false]
     split <;> split <;> (try split) <;> simp)

/-! ## Invariants of the reachable states -/

theorem processFrames_cacheStep (cv : Cv) (env : TickEnv) (s : Backend) :
    CacheStep cv s (processFrames cv env s).1
    ∧ (processFrames cv env s).1.frameChangeThreshold = s.frameChangeThreshold := by
  by_cases hv : s.clients = []
  · have h : processFrames cv env s = (s, []) := by simp [processFrames, hv]
    rw [h]
    exact ⟨CacheStep.refl cv s, rfl⟩
  · obtain ⟨p1, p2, p3, p4, p5, p6, p7, p8⟩ := processFramesPrologue_frame env s
    obtain ⟨m1, m2, m3⟩ := processFramesMonitoring_more cv env (processFramesPrologue env s)
    obtain ⟨b1, b2, b3⟩ := processFramesBasler_more cv env
      (processFramesMonitoring cv env (processFramesPrologue env s)).1
    obtain ⟨e1, e2, e3, e4, e5, e6⟩ := processFramesEpilogue_facts env
      (processFramesBasler cv env
        (processFramesMonitoring cv env (processFramesPrologue env s)).1).1
      ((processFramesMonitoring cv env (processFramesPrologue env s)).2.1
        || (processFramesBasler cv env
            (processFramesMonitoring cv env (processFramesPrologue env s)).1).2.1)
    have e7 := (processFramesEpilogue_more env
      (processFramesBasler cv env
        (processFramesMonitoring cv env (processFramesPrologue env s)).1).1
      ((processFramesMonitoring cv env (processFramesPrologue env s)).2.1
        || (processFramesBasler cv env
            (processFramesMonitoring cv env (processFramesPrologue env s)).1).2.1)).1
    rw [processFrames_eq cv env s hv]
    dsimp only
    refine ⟨?_, ?_⟩
    · exact CacheStep.trans cv _ _ _ (CacheStep.of_eq cv s _ p6 p7)
        (CacheStep.trans cv _ _ _ m1
          (CacheStep.trans cv _ _ _ b1 (CacheStep.of_eq cv _ _ e3 e4)))
    · rw [e7, b2, m2, p8]

theorem onTextMessageReceived_fst (fromJson : String → QJsonDocument)
    (sock : Nat → SocketState) (s : Backend) (message : String) :
    (onTextMessageReceived fromJson sock s message).1 = s := by
  unfold onTextMessageReceived sendResponse
  dsimp only
  split
  · rfl
  · split
    · split <;> rfl
    · rfl

theorem step_cacheStep (cv : Cv) (fromJson : String → QJsonDocument) (s : Backend) (i : Input) :
    CacheStep cv s (step cv fromJson s i).1
    ∧ (step cv fromJson s i).1.frameChangeThreshold = s.frameChangeThreshold := by
  cases i with
  | connect c =>
    unfold step onNewConnection
    dsimp only
    split
    · exact ⟨CacheStep.of_eq cv _ _ rfl rfl, rfl⟩
    · exact ⟨CacheStep.of_eq cv _ _ rfl rfl, rfl⟩
  | disconnect sender =>
    cases sender with
    | none => exact ⟨CacheStep.refl cv s, rfl⟩
    | some c =>
      unfold step onClientDisconnected
      dsimp only
      split
      · exact ⟨CacheStep.of_eq cv _ _ rfl rfl, rfl⟩
      · exact ⟨CacheStep.of_eq cv _ _ rfl rfl, rfl⟩
  | message sock text =>
    unfold step
    rw [onTextMessageReceived_fst]
    exact ⟨CacheStep.refl cv s, rfl⟩
  | timeout env =>
    simp only [step]
    split
    · exact processFrames_cacheStep cv env s
    · exact ⟨CacheStep.refl cv s, rfl⟩

theorem cacheConsistent_of_cacheStep (cv : Cv) (s t : Backend) (hs : CacheConsistent cv s)
    (h : CacheStep cv s t) : CacheConsistent cv t := by
  intro ch
  rcases h ch with g | ⟨frame, buffer, g1, g2, g3⟩
  · have hc := hs ch
    unfold cacheEntry at g
    simp only [Prod.mk.injEq] at g
    obtain ⟨q1, q2, q3, q4⟩ := g
    unfold cachedFrame at hc ⊢
    rw [q1, q2, q3, q4]
    exact hc
  · unfold cacheEntry at g3
    simp only [Prod.mk.injEq] at g3
    obtain ⟨q1, q2, q3, q4⟩ := g3
    unfold cachedFrame
    rw [q1, q2, q3, q4]
    exact ⟨⟨fun _ => ⟨rfl, g1⟩, fun _ => rfl⟩, fun _ => g2⟩

theorem cacheConsistent_init (cv : Cv) (currentTime : Int) (rtspOpened : Bool) :
    CacheConsistent cv (Backend.init currentTime rtspOpened) := by
  intro ch
  simp [Backend.init, QMap.contains]

/-- In every reachable state the caches are consistent and the thresholds are the
configured ones. -/
theorem reachable_invariants (cv : Cv) (fromJson : String → QJsonDocument) (s : Backend)
    (h : Reachable cv fromJson s) :
    CacheConsistent cv s ∧ s.frameChangeThreshold = configuredThresholds := by
  induction h with
  | init t o => exact ⟨cacheConsistent_init cv t o, rfl⟩
  | slot s i _ ih =>
    obtain ⟨h1, h2⟩ := step_cacheStep cv fromJson s i
    exact ⟨cacheConsistent_of_cacheStep cv s _ ih.1 h1, h2.trans ih.2⟩
  | capture s cams _ ih =>
    exact ⟨cacheConsistent_of_cacheStep cv s _ ih.1 (CacheStep.of_eq cv _ _ rfl rfl), ih.2⟩

theorem reachable_run (cv : Cv) (fromJson : String → QJsonDocument) :
    ∀ (inputs : List Input) (s : Backend), Reachable cv fromJson s →
      Reachable cv fromJson (run cv fromJson s inputs).1
  | [], s, h => h
  | i :: rest, s, h => by
    simp only [run]
    exact reachable_run cv fromJson rest _ (Reachable.slot s i h)

theorem thresholdOf_configured (s : Backend) (h : s.frameChangeThreshold = configuredThresholds)
    (channel : String) :
    thresholdOf s channel
      = if channel = "monitoring" then 5000 else if channel = "basler" then 2000 else 3000 := by
  unfold thresholdOf
  rw [h]
  unfold configuredThresholds
  simp only [QMap.value_assign, QMap.value]
  by_cases h1 : channel = "basler"
  · subst h1
    simp
  · by_cases h2 : channel = "monitoring"
    · subst h2
      simp
    · have h3 : ¬ "basler" = channel := fun h => h1 h.symm
      have h4 : ¬ "monitoring" = channel := fun h => h2 h.symm
      simp [h1, h2, h3, h4]

/-- In every reachable state the detector computes the same in `double` as in
exact arithmetic. -/
theorem hasFrameChangedDouble_eq_of_reachable (cv : Cv) (fromJson : String → QJsonDocument)
    (s : Backend) (newFrame : Mat) (channel : String) (hr : Reachable cv fromJson s) :
    hasFrameChangedDouble s newFrame channel = hasFrameChanged s newFrame channel := by
  apply hasFrameChangedDouble_eq
  rw [thresholdOf_configured s (reachable_invariants cv fromJson s hr).2 channel]
  split
  · decide
  · split <;> decide

/-! ## C11: the two caches of a channel -/

/-- C11: in every reachable state and for every channel, a payload is cached
exactly when a non-empty raw frame is cached, and the cached payload is the
codec's output for the cached raw frame under the channel's parameters (JPEG
quality 55 for "monitoring", 75 for any other channel); every slot leaves the
cache entry of a channel as it was or replaces raw frame and payload together
by a non-empty frame and the successful encoding of that frame. -/
theorem cache_pair_invariant (cv : Cv) (fromJson : String → QJsonDocument) (s : Backend)
    (h : Reachable cv fromJson s) :
    (∀ channel,
      (QMap.contains s.lastEncodedFrames channel = true
        ↔ QMap.contains s.lastRawFrames channel = true ∧ (cachedFrame s channel).empty = false)
      ∧ (QMap.contains s.lastEncodedFrames channel = true →
          cv.imencode ".jpg" (cachedFrame s channel) (encodeParams channel)
            = some (QMap.value s.lastEncodedFrames channel default)))
    ∧ encodeParams "monitoring"
        = [IMWRITE_JPEG_QUALITY, 55, IMWRITE_JPEG_OPTIMIZE, 1, IMWRITE_JPEG_PROGRESSIVE, 0]
    ∧ (∀ channel, channel ≠ "monitoring" →
        encodeParams channel
          = [IMWRITE_JPEG_QUALITY, 75, IMWRITE_JPEG_OPTIMIZE, 1, IMWRITE_JPEG_PROGRESSIVE, 0])
    ∧ (∀ (i : Input) (channel : String),
        cacheEntry (step cv fromJson s i).1 channel = cacheEntry s channel
        ∨ ∃ frame buffer, frame.empty = false
            ∧ cv.imencode ".jpg" frame (encodeParams channel) = some buffer
            ∧ cacheEntry (step cv fromJson s i).1 channel = (true, frame, true, buffer)) := by
  refine ⟨(reachable_invariants cv fromJson s h).1, rfl, ?_, ?_⟩
  · intro channel hne
    unfold encodeParams
    rw [if_neg hne]
    rfl
  · intro i channel
    exact (step_cacheStep cv fromJson s i).1 channel

/-! ## C12: the sweep and the timer -/

theorem foldl_removeAll (d : List Nat) :
    ∀ l : List Nat, d.foldl removeAll l = l.filter (fun x => decide (x ∉ d)) := by
  induction d with
  | nil =>
    intro l
    simp
  | cons a d ih =>
    intro l
    rw [List.foldl_cons, ih, removeAll_eq_filter, List.filter_filter]
    congr 1
    funext x
    by_cases h1 : x = a <;> by_cases h2 : x ∈ d <;> simp [h1, h2]

theorem cleanupDisconnectedClients_all (sock : Nat → SocketState) (s : Backend)
    (hall : ∀ c ∈ s.clients, sock c ≠ SocketState.ConnectedState) :
    (cleanupDisconnectedClients sock s).clients = [] := by
  have hf : s.clients.filter (fun client => sock client ≠ SocketState.ConnectedState)
      = s.clients := by
    rw [List.filter_eq_self]
    intro c hc
    simpa using hall c hc
  unfold cleanupDisconnectedClients
  dsimp only
  rw [hf]
  by_cases he : s.clients = []
  · simp [he]
  · have hne : s.clients.isEmpty = false := by
      cases hs : s.clients with
      | nil => exact absurd hs he
      | cons a l => rfl
    simp only [hne, Bool.not_false, if_true, foldl_removeAll]
    rw [List.filter_eq_nil_iff]
    intro c hc
    simp [hc]

/-- A tick in which the sweep is due and no viewer socket is connected empties
the viewer list and leaves the timer as it was. -/
theorem processFrames_sweep (cv : Cv) (env : TickEnv) (s : Backend) (hv : s.clients ≠ [])
    (hsweep : env.now - s.lastClientCleanup ≥ clientCleanupInterval)
    (hall : ∀ c ∈ s.clients, env.sock c ≠ SocketState.ConnectedState) :
    (processFrames cv env s).1.clients = []
    ∧ (processFrames cv env s).1.timerActive = s.timerActive := by
  obtain ⟨p1, p2, p3, p4, p5, p6, p7, p8⟩ := processFramesPrologue_frame env s
  have p9 := processFramesPrologue_lastClientCleanup env s
  obtain ⟨m1, m2, m3, m4, m5, m6, m7, m8, m9⟩ :=
    processFramesMonitoring_facts cv env (processFramesPrologue env s)
  obtain ⟨n1, n2, n3⟩ := processFramesMonitoring_more cv env (processFramesPrologue env s)
  obtain ⟨b1, b2, b3, b4, b5, b6, b7, b8⟩ :=
    processFramesBasler_facts cv env
      (processFramesMonitoring cv env (processFramesPrologue env s)).1
  obtain ⟨c1, c2, c3⟩ := processFramesBasler_more cv env
    (processFramesMonitoring cv env (processFramesPrologue env s)).1
  have hany : ((processFramesMonitoring cv env (processFramesPrologue env s)).2.1
      || (processFramesBasler cv env
          (processFramesMonitoring cv env (processFramesPrologue env s)).1).2.1) = true := by
    rw [b8, Bool.or_true]
  obtain ⟨e1, e2, e3, e4, e5, e6⟩ := processFramesEpilogue_facts env
    (processFramesBasler cv env (processFramesMonitoring cv env (processFramesPrologue env s)).1).1
    ((processFramesMonitoring cv env (processFramesPrologue env s)).2.1
      || (processFramesBasler cv env
          (processFramesMonitoring cv env (processFramesPrologue env s)).1).2.1)
  have e8 := (processFramesEpilogue_more env
    (processFramesBasler cv env (processFramesMonitoring cv env (processFramesPrologue env s)).1).1
    ((processFramesMonitoring cv env (processFramesPrologue env s)).2.1
      || (processFramesBasler cv env
          (processFramesMonitoring cv env (processFramesPrologue env s)).1).2.1)).2
  have hcl : (processFramesBasler cv env
      (processFramesMonitoring cv env (processFramesPrologue env s)).1).1.clients = s.clients := by
    rw [b6, m7, p1]
  have hlc : (processFramesBasler cv env
      (processFramesMonitoring cv env (processFramesPrologue env s)).1).1.lastClientCleanup
      = s.lastClientCleanup := by
    rw [c3, n3, p9]
  rw [processFrames_eq cv env s hv]
  dsimp only
  refine ⟨?_, ?_⟩
  · rw [e8, hlc, if_pos hsweep]
    apply cleanupDisconnectedClients_all
    rw [hcl]
    exact hall
  · rw [e6 hany, b7, m9, p2]

theorem step_connect (cv : Cv) (fromJson : String → QJsonDocument) (s : Backend) (c : Nat) :
    step cv fromJson s (Input.connect c) = onNewConnection s c := rfl

theorem step_timeout_active (cv : Cv) (fromJson : String → QJsonDocument) (s : Backend)
    (env : TickEnv) (h : s.timerActive = true) :
    step cv fromJson s (Input.timeout env) = processFrames cv env s := by
  simp only [step, h, if_true]

theorem run_nil (cv : Cv) (fromJson : String → QJsonDocument) (s : Backend) :
    run cv fromJson s [] = (s, []) := rfl

theorem run_cons (cv : Cv) (fromJson : String → QJsonDocument) (s : Backend) (i : Input)
    (rest : List Input) :
    run cv fromJson s (i :: rest)
      = ((run cv fromJson (step cv fromJson s i).1 rest).1,
          (step cv fromJson s i).2 ++ (run cv fromJson (step cv fromJson s i).1 rest).2) := rfl

theorem run_two_fst (cv : Cv) (fromJson : String → QJsonDocument) (s : Backend)
    (i1 i2 : Input) :
    (run cv fromJson s [i1, i2]).1 = (step cv fromJson (step cv fromJson s i1).1 i2).1 := rfl

theorem processFrames_no_viewer (cv : Cv) (env : TickEnv) (s : Backend) (h : s.clients = []) :
    processFrames cv env s = (s, []) := by
  simp [processFrames, h]

/-- C12 evaluated at a reachable state: the constructor runs at clock 0, viewer 1
connects, and the timer fires at clock 30000 while the socket of viewer 1 is
closing; the sweep removes the viewer, the viewer list is empty and the timer is
still active, and every further tick returns at the first guard with the state
unchanged, so the timer keeps running until a slot other than `processFrames`
is invoked. -/
theorem sweep_leaves_timer_running :
    Reachable plainCv toyJson sweptRun.1
    ∧ sweptRun.1.clients = []
    ∧ sweptRun.1.timerActive = true
    ∧ ∀ env : TickEnv, step plainCv toyJson sweptRun.1 (Input.timeout env) = (sweptRun.1, []) := by
  have hr : Reachable plainCv toyJson sweptRun.1 :=
    reachable_run plainCv toyJson _ _ (Reachable.init 0 false)
  have hact : (onNewConnection (Backend.init 0 false) 1).1.timerActive = true := by decide
  have he : sweptRun.1
      = (processFrames plainCv sweepTick (onNewConnection (Backend.init 0 false) 1).1).1 :=
    (run_two_fst plainCv toyJson (Backend.init 0 false) (Input.connect 1)
      (Input.timeout sweepTick)).trans
      (by rw [step_connect, step_timeout_active _ _ _ _ hact])
  have hs := processFrames_sweep plainCv sweepTick (onNewConnection (Backend.init 0 false) 1).1
    (by decide) (by decide) (by decide)
  have hc : sweptRun.1.clients = [] := by
    rw [he]
    exact hs.1
  have ht : sweptRun.1.timerActive = true := by
    rw [he]
    exact hs.2.trans (by decide)
  refine ⟨hr, hc, ht, ?_⟩
  intro env
  rw [step_timeout_active _ _ _ _ ht]
  exact processFrames_no_viewer plainCv env sweptRun.1 hc

/-! ## The caches after a fallback tick -/

theorem encodeAndSendFrame_encoded (cv : Cv) (sock : Nat → SocketState) (s : Backend)
    (frame : Mat) (channel : String) (payload : List Nat)
    (hne : frame.empty = false) (hv : s.clients ≠ [])
    (hch : (hasFrameChanged s frame channel).1 = true
      ∨ QMap.contains s.lastEncodedFrames channel = false)
    (henc : cv.imencode ".jpg" frame (encodeParams channel) = some payload) :
    (encodeAndSendFrame cv sock s frame channel).1 = cacheFrame s frame payload channel := by
  have hcl : s.clients.isEmpty = false := by
    cases hs : s.clients with
    | nil => exact absurd hs hv
    | cons a l => rfl
  have hcond : (!(hasFrameChanged s frame channel).1
      && QMap.contains s.lastEncodedFrames channel) = false := by
    rcases hch with h | h <;> simp [h]
  rw [encodeAndSendFrame_eq]
  simp only [hne, hcl, Bool.or_self, Bool.false_eq_true, if_false, hcond, henc]

theorem encodeAndSendFrame_caches_congr (cv : Cv) (sock : Nat → SocketState) (s t : Backend)
    (frame : Mat) (channel : String)
    (h0 : s.clients = t.clients)
    (h1 : s.lastRawFrames = t.lastRawFrames)
    (h2 : s.frameChangeThreshold = t.frameChangeThreshold)
    (h3 : s.lastEncodedFrames = t.lastEncodedFrames) :
    (encodeAndSendFrame cv sock s frame channel).1.lastRawFrames
        = (encodeAndSendFrame cv sock t frame channel).1.lastRawFrames
    ∧ (encodeAndSendFrame cv sock s frame channel).1.lastEncodedFrames
        = (encodeAndSendFrame cv sock t frame channel).1.lastEncodedFrames := by
  rw [encodeAndSendFrame_eq, encodeAndSendFrame_eq,
    hasFrameChanged_fst_congr s t frame channel h1 h2, h0, h3]
  split
  · exact ⟨h1, h3⟩
  · split
    · exact ⟨h1, h3⟩
    · split
      · exact ⟨h1, h3⟩
      · simp only [cacheFrame, h1, h3, and_self]

theorem processFramesMonitoring_fallback_caches (cv : Cv) (env : TickEnv) (s : Backend)
    (hdue : isDue s env.now "monitoring") (hsrc : grabMonitoring s = none) :
    (processFramesMonitoring cv env s).1.lastRawFrames
        = (encodeAndSendFrame cv env.sock s
            (createFakeFrame cv "monitoring" s.frameCounter env.wallSeconds env.noise)
            "monitoring").1.lastRawFrames
    ∧ (processFramesMonitoring cv env s).1.lastEncodedFrames
        = (encodeAndSendFrame cv env.sock s
            (createFakeFrame cv "monitoring" s.frameCounter env.wallSeconds env.noise)
            "monitoring").1.lastEncodedFrames := by
  unfold processFramesMonitoring
  dsimp only
  rw [QMap.index_fst_int, QMap.index_fst_int]
  have hd : env.now - QMap.value s.lastFrameTime "monitoring" 0
      ≥ QMap.value s.cameraIntervals "monitoring" 0 := hdue
  have hg : grabMonitoring
      { s with lastFrameTime := (QMap.index s.lastFrameTime "monitoring").2,
               cameraIntervals := (QMap.index s.cameraIntervals "monitoring").2 }
      = none := (grabMonitoring_congr _ _ rfl).trans hsrc
  simp only [hd, if_true, hg]
  exact encodeAndSendFrame_caches_congr cv env.sock _ s _ _ rfl rfl rfl rfl

theorem processFramesBasler_idle_caches (cv : Cv) (env : TickEnv) (s : Backend)
    (hnd : ¬ isDue s env.now "basler") :
    (processFramesBasler cv env s).1.lastRawFrames = s.lastRawFrames
    ∧ (processFramesBasler cv env s).1.lastEncodedFrames = s.lastEncodedFrames := by
  unfold processFramesBasler
  dsimp only
  rw [QMap.index_fst_int, QMap.index_fst_int]
  have hd : ¬ (env.now - QMap.value s.lastFrameTime "basler" 0
      ≥ QMap.value s.cameraIntervals "basler" 0) := hnd
  simp only [hd, if_false, and_self]

/-- The caches after a tick in which only "monitoring" is due and its source
gives no frame are those `encodeAndSendFrame` leaves for the synthetic frame. -/
theorem processFrames_fallback_caches (cv : Cv) (env : TickEnv) (s : Backend)
    (hv : s.clients ≠ []) (hdue : isDue s env.now "monitoring")
    (hsrc : grabMonitoring (processFramesPrologue env s) = none)
    (hnb : ¬ isDue s env.now "basler") :
    (processFrames cv env s).1.lastRawFrames
        = (encodeAndSendFrame cv env.sock s
            (createFakeFrame cv "monitoring" (s.frameCounter + 1) env.wallSeconds env.noise)
            "monitoring").1.lastRawFrames
    ∧ (processFrames cv env s).1.lastEncodedFrames
        = (encodeAndSendFrame cv env.sock s
            (createFakeFrame cv "monitoring" (s.frameCounter + 1) env.wallSeconds env.noise)
            "monitoring").1.lastEncodedFrames := by
  obtain ⟨p1, p2, p3, p4, p5, p6, p7, p8⟩ := processFramesPrologue_frame env s
  obtain ⟨m1, m2, m3, m4, m5, m6, m7, m8, m9⟩ :=
    processFramesMonitoring_facts cv env (processFramesPrologue env s)
  have hdue1 : isDue (processFramesPrologue env s) env.now "monitoring" := by
    unfold isDue
    rw [p4, p5]
    exact hdue
  have hnb1 : ¬ isDue (processFramesMonitoring cv env (processFramesPrologue env s)).1
      env.now "basler" := by
    unfold isDue
    rw [m4 "basler" (by decide), m5 "basler", p4, p5]
    exact hnb
  obtain ⟨f1, f2⟩ := processFramesMonitoring_fallback_caches cv env _ hdue1 hsrc
  obtain ⟨g1, g2⟩ := processFramesBasler_idle_caches cv env _ hnb1
  obtain ⟨c1, c2⟩ := encodeAndSendFrame_caches_congr cv env.sock (processFramesPrologue env s) s
    (createFakeFrame cv "monitoring" (s.frameCounter + 1) env.wallSeconds env.noise)
    "monitoring" p1 p6 p8 p7
  obtain ⟨e1, e2, e3, e4, e5, e6⟩ := processFramesEpilogue_facts env
    (processFramesBasler cv env (processFramesMonitoring cv env (processFramesPrologue env s)).1).1
    ((processFramesMonitoring cv env (processFramesPrologue env s)).2.1
      || (processFramesBasler cv env
          (processFramesMonitoring cv env (processFramesPrologue env s)).1).2.1)
  rw [processFrames_eq cv env s hv]
  dsimp only
  rw [e3, e4, g1, g2, f1, f2, p3]
  exact ⟨c1, c2⟩

/-- A tick in which the sweep is not due leaves the viewer list as it was. -/
theorem processFrames_clients_no_sweep (cv : Cv) (env : TickEnv) (s : Backend)
    (hns : ¬ env.now - s.lastClientCleanup ≥ clientCleanupInterval) :
    (processFrames cv env s).1.clients = s.clients := by
  by_cases hv : s.clients = []
  · rw [processFrames_no_viewer cv env s hv]
  · obtain ⟨p1, p2, p3, p4, p5, p6, p7, p8⟩ := processFramesPrologue_frame env s
    have p9 := processFramesPrologue_lastClientCleanup env s
    obtain ⟨m1, m2, m3, m4, m5, m6, m7, m8, m9⟩ :=
      processFramesMonitoring_facts cv env (processFramesPrologue env s)
    obtain ⟨n1, n2, n3⟩ := processFramesMonitoring_more cv env (processFramesPrologue env s)
    obtain ⟨b1, b2, b3, b4, b5, b6, b7, b8⟩ :=
      processFramesBasler_facts cv env
        (processFramesMonitoring cv env (processFramesPrologue env s)).1
    obtain ⟨c1, c2, c3⟩ := processFramesBasler_more cv env
      (processFramesMonitoring cv env (processFramesPrologue env s)).1
    have e8 := (processFramesEpilogue_more env
      (processFramesBasler cv env
        (processFramesMonitoring cv env (processFramesPrologue env s)).1).1
      ((processFramesMonitoring cv env (processFramesPrologue env s)).2.1
        || (processFramesBasler cv env
            (processFramesMonitoring cv env (processFramesPrologue env s)).1).2.1)).2
    rw [processFrames_eq cv env s hv]
    dsimp only
    rw [e8, c3, n3, p9, if_neg hns, b6, m7, p1]

theorem firstTickRun_eq :
    firstTickRun.1 = (processFrames plainCv (tickAt 95 0) activeState).1 := by
  have hconn : onNewConnection (Backend.init 50 false) 1 = (activeState, [Event.timerStart 5]) := by
    decide
  have hact : activeState.timerActive = true := by decide
  have h1 : firstTickRun.1
      = (step plainCv toyJson (step plainCv toyJson (Backend.init 50 false) (Input.connect 1)).1
          (Input.timeout (tickAt 95 0))).1 :=
    run_two_fst plainCv toyJson (Backend.init 50 false) (Input.connect 1)
      (Input.timeout (tickAt 95 0))
  have h2 : (step plainCv toyJson (step plainCv toyJson (Backend.init 50 false) (Input.connect 1)).1
      (Input.timeout (tickAt 95 0))).1 = (processFrames plainCv (tickAt 95 0) activeState).1 := by
    rw [step_connect, hconn, step_timeout_active _ _ _ _ hact]
  exact h1.trans h2

theorem firstTick_encoded :
    (encodeAndSendFrame plainCv (tickAt 95 0).sock activeState
        (createFakeFrame plainCv "monitoring" (activeState.frameCounter + 1)
          (tickAt 95 0).wallSeconds (tickAt 95 0).noise) "monitoring").1
      = cacheFrame activeState warmFrame warmPayload "monitoring" :=
  encodeAndSendFrame_encoded plainCv (tickAt 95 0).sock activeState
    (createFakeFrame plainCv "monitoring" (activeState.frameCounter + 1) (tickAt 95 0).wallSeconds
      (tickAt 95 0).noise) "monitoring" warmPayload (by decide) (by decide)
    (Or.inr (by decide)) (plainCv_fake_imencode _ _ _ (List.length_replicate _ _))

/-- The state after the first fallback tick: reachable, with the synthetic frame
and its encoding cached on "monitoring" and viewer 1 still registered. -/
theorem firstTickRun_caches :
    Reachable plainCv toyJson firstTickRun.1
    ∧ firstTickRun.1.lastRawFrames = [("monitoring", warmFrame)]
    ∧ firstTickRun.1.lastEncodedFrames = [("monitoring", warmPayload)]
    ∧ firstTickRun.1.clients = [1] := by
  have hr : Reachable plainCv toyJson firstTickRun.1 :=
    reachable_run plainCv toyJson _ _ (Reachable.init 50 false)
  obtain ⟨h1, h2⟩ := processFrames_fallback_caches plainCv (tickAt 95 0) activeState
    (by decide) (by decide) (by decide) (by decide)
  have hcl : (processFrames plainCv (tickAt 95 0) activeState).1.clients = activeState.clients :=
    processFrames_clients_no_sweep plainCv (tickAt 95 0) activeState (by decide)
  refine ⟨hr, ?_, ?_, ?_⟩
  · rw [firstTickRun_eq, h1, firstTick_encoded]
    rfl
  · rw [firstTickRun_eq, h2, firstTick_encoded]
    rfl
  · rw [firstTickRun_eq, hcl]
    rfl

/-- C11 at the state after the first fallback tick: a payload is cached on
"monitoring" and it is the codec's output for the cached raw frame; nothing is
cached on "basler". -/
theorem cache_pair_invariant_witness :
    Reachable plainCv toyJson firstTickRun.1
    ∧ QMap.contains firstTickRun.1.lastEncodedFrames "monitoring" = true
    ∧ (QMap.contains firstTickRun.1.lastRawFrames "monitoring" = true
        ∧ (cachedFrame firstTickRun.1 "monitoring").empty = false)
    ∧ plainCv.imencode ".jpg" (cachedFrame firstTickRun.1 "monitoring")
          (encodeParams "monitoring")
        = some (QMap.value firstTickRun.1.lastEncodedFrames "monitoring" default)
    ∧ (QMap.contains firstTickRun.1.lastEncodedFrames "basler" = true
        ↔ QMap.contains firstTickRun.1.lastRawFrames "basler" = true
          ∧ (cachedFrame firstTickRun.1 "basler").empty = false) :=
  have h := cache_pair_invariant plainCv toyJson firstTickRun.1 firstTickRun_caches.1
  have hc : QMap.contains firstTickRun.1.lastEncodedFrames "monitoring" = true := by
    rw [firstTickRun_caches.2.2.1]
    decide
  ⟨firstTickRun_caches.1, hc, (h.1 "monitoring").1.1 hc, (h.1 "monitoring").2 hc,
    (h.1 "basler").1⟩

/-! ## C14: the thresholds are out of reach -/

end CT2
